import Mathlib

/-!
Shallow embedding of the flow-orchestration core of the blynx backend
(`agent_flow_manager.py` and the WebSocket connection registry of
`agent_service.py`), together with theorems settling the specification
claims about it.

Modelling conventions:
* Python dicts are association lists with insert-overwrite semantics
  (`dget` / `dset` / `derase`), which preserves exactly the lookup
  behaviour the code relies on.
* Database writes (`_save_flow_to_db`, `_update_flow_status_in_db`,
  `_update_flow_progress_in_db`, `_save_final_result_to_db` and the
  db half of `_log_flow_event`) swallow their own exceptions in the
  source and touch no in-memory state, so they are not part of the
  state model.
* External calls (LLM invocations, scrapers, the news agent) are
  abstracted by an `Env` record providing each call result; the
  source wraps each such call so that it returns either a payload or
  a degraded error dictionary, which is the `TaskOutcome` type here.
* The cooperative interleaving with `stop_agent_flow` is modelled by
  a schedule `sched : Nat -> Bool`: point `k` says whether an
  owner-issued stop request is processed at suspension point `k` of
  the background execution.  Because the stop flag is only ever set
  (never cleared), applying stops at the enumerated suspension points
  captures every observable interleaving of the real event loop.
-/

namespace Blynx

/-- Python-dict lookup on an association list. -/
def dget {α β : Type} [DecidableEq α] : List (α × β) → α → Option β
  | [], _ => none
  | (k', v) :: rest, k => if k' = k then some v else dget rest k

/-- Python-dict insert/overwrite on an association list. -/
def dset {α β : Type} [DecidableEq α] : List (α × β) → α → β → List (α × β)
  | [], k, v => [(k, v)]
  | (k', v') :: rest, k, v =>
      if k' = k then (k, v) :: rest else (k', v') :: dset rest k v

/-- Python-dict `del` on an association list. -/
def derase {α β : Type} [DecidableEq α] : List (α × β) → α → List (α × β)
  | [], _ => []
  | (k', v') :: rest, k =>
      if k' = k then derase rest k else (k', v') :: derase rest k

/-- `FlowStatus` enum from `agent_flow_manager.py`. -/
inductive FlowStatus where
  | pending
  | running
  | completed
  | failed
  | stopped
deriving DecidableEq, Repr

/-- One in-memory flow log entry; the source also stores a timestamp and
optional metadata, which no claim inspects, so only the agent tag and the
message are modelled. -/
structure LogEntry where
  agent : String
  message : String
deriving DecidableEq, Repr

/-- Result dictionary returned by a scraper for one source URL.
The source checks only truthiness and the `success` field; the rest of
the dictionary is opaque payload. -/
structure ScrapeRes where
  success : Bool
  payload : String
deriving DecidableEq, Repr

/-- The execution of one fanned-out task closure: it either returns a
value or raises an exception with a message. -/
inductive TaskRun where
  | ret (v : String)
  | exn (msg : String)
deriving DecidableEq, Repr

/-- A collected task outcome after fan-in: either the real result or the
degraded error dictionary built from a raised exception. -/
inductive TaskOutcome where
  | ok (v : String)
  | err (msg : String)
deriving DecidableEq, Repr

/-- The final result object assembled at the end of `_execute_agent_flow`
(the fields no claim inspects are folded into the opaque payloads). -/
structure FinalResult where
  source_urls : List String
  total_sources : Nat
  completed_sources : Nat
  failed_sources : Nat
  analysis : List TaskOutcome
  evaluation : List TaskOutcome
  score : TaskOutcome
  feedback : TaskOutcome
deriving DecidableEq, Repr

/-- The in-memory state of `AgentFlowManager`. -/
structure MState where
  active_flows : List (Nat × String)
  flow_logs : List (String × List LogEntry)
  flow_results : List (String × FinalResult)
  flow_status : List (String × FlowStatus)
  stop_signals : List (String × Bool)
deriving DecidableEq, Repr

def MState.empty : MState := ⟨[], [], [], [], []⟩

/-- `_log_flow_event`: ensures the log list exists, then appends the entry.
The database insert in the source catches its own exceptions and is
external to the in-memory state. -/
def log_flow_event (s : MState) (flow_id agent message : String) : MState :=
  let cur := (dget s.flow_logs flow_id).getD []
  { s with flow_logs := dset s.flow_logs flow_id (cur ++ [⟨agent, message⟩]) }

/-- `get_flow_logs`: `self.flow_logs.get(flow_id, [])`. -/
def get_flow_logs (s : MState) (flow_id : String) : List LogEntry :=
  (dget s.flow_logs flow_id).getD []

/-- `get_flow_result`: `self.flow_results.get(flow_id)`. -/
def get_flow_result (s : MState) (flow_id : String) : Option FinalResult :=
  dget s.flow_results flow_id

/-- `get_flow_status`: `self.flow_status.get(flow_id)`. -/
def get_flow_status (s : MState) (flow_id : String) : Option FlowStatus :=
  dget s.flow_status flow_id

/-- The registration block of `start_agent_flow` (lines 39-43): records the
active-flow mapping, empty log list, PENDING status and cleared stop flag. -/
def register_flow (s : MState) (user_id : Nat) (flow_id : String) : MState :=
  { s with
    active_flows := dset s.active_flows user_id flow_id
    flow_logs := dset s.flow_logs flow_id []
    flow_status := dset s.flow_status flow_id FlowStatus.pending
    stop_signals := dset s.stop_signals flow_id false }

/-- `start_agent_flow`: raises ValueError only when the user has an active
flow mapping whose status is RUNNING; otherwise registers the new flow.
The fresh uuid is passed in as `flow_id`; the db save and the
`asyncio.create_task` launch are external effects. -/
def start_agent_flow (s : MState) (user_id : Nat) (flow_id : String) :
    Except String MState :=
  match dget s.active_flows user_id with
  | some existing_flow_id =>
      if dget s.flow_status existing_flow_id = some FlowStatus.running then
        Except.error "User already has an active agent flow running"
      else
        Except.ok (register_flow s user_id flow_id)
  | none => Except.ok (register_flow s user_id flow_id)

/-- `stop_agent_flow`: returns False unless the requesting user owns the
flow; then, if the flow has a stop-signal entry, sets the flag, forces the
status to STOPPED and logs the stop event, returning True. -/
def stop_agent_flow (s : MState) (user_id : Nat) (flow_id : String) : MState × Bool :=
  if dget s.active_flows user_id ≠ some flow_id then (s, false)
  else if (dget s.stop_signals flow_id).isSome then
    let s1 : MState :=
      { s with
        stop_signals := dset s.stop_signals flow_id true
        flow_status := dset s.flow_status flow_id FlowStatus.stopped }
    (log_flow_event s1 flow_id "SYSTEM" "Flow stopped by user", true)
  else (s, false)

/-- `_check_stop_signal`: reads the flag with default False; when set, logs
the stop-signal event and reports that the flow should halt. -/
def check_stop_signal (s : MState) (flow_id : String) : MState × Bool :=
  if (dget s.stop_signals flow_id).getD false then
    (log_flow_event s flow_id "SYSTEM" "Flow stop signal received", true)
  else (s, false)

/-- Boolean substring containment on character lists: does the second list
start with the first? -/
def charsStartWith : List Char → List Char → Bool
  | [], _ => true
  | _ :: _, [] => false
  | a :: as, b :: bs => a == b && charsStartWith as bs

/-- Boolean substring containment on character lists. -/
def charsContain (needle : List Char) : List Char → Bool
  | [] => charsStartWith needle []
  | b :: bs => charsStartWith needle (b :: bs) || charsContain needle bs

/-- Python `needle in hay` on strings. -/
def strContains (hay needle : String) : Bool :=
  charsContain needle.data hay.data

/-- `_detect_platform`: substring containment on the raw URL, first match
wins in the order instagram, x/twitter, linkedin, landing_page. -/
def detect_platform (url : String) : String :=
  if strContains url "instagram.com" then "instagram"
  else if strContains url "x.com" || strContains url "twitter.com" then "x"
  else if strContains url "linkedin.com" then "linkedin"
  else "landing_page"

/-- `asyncio.gather(*tasks, return_exceptions=True)`: every task runs to
completion and its value or raised exception is collected positionally;
no exception propagates. -/
def gather_return_exceptions (tasks : List TaskRun) : List TaskRun := tasks

/-- The fan-in loop after each gather (lines 252-256 and 284-288): each
collected exception is replaced by the degraded error dictionary, every
other position keeps the real result. -/
def degrade_exceptions (results : List TaskRun) : List TaskOutcome :=
  results.map (fun r =>
    match r with
    | TaskRun.ret v => TaskOutcome.ok v
    | TaskRun.exn m => TaskOutcome.err m)

/-- The per-failure log emitted by the fan-in loops: for every collected
exception at position `i` the source logs `"<word> {i+1} failed: <msg>"`
with the phase tag. -/
def degrade_failure_logs (flow_id tag word : String) :
    MState → List TaskRun → Nat → MState
  | s, [], _ => s
  | s, TaskRun.ret _ :: rest, i =>
      degrade_failure_logs flow_id tag word s rest (i + 1)
  | s, TaskRun.exn m :: rest, i =>
      degrade_failure_logs flow_id tag word
        (log_flow_event s flow_id tag
          (word ++ " " ++ toString (i + 1) ++ " failed: " ++ m))
        rest (i + 1)

/-- Results of all external calls made by one background execution.
`scrape i` is what `_run_enhanced_ingestor_agent` returns for source
index `i` (`none` models a falsy return); the analyzer and evaluator
fields are the runs of the fanned-out closures of phases 4 and 5; the
remaining fields are the degraded-or-real payloads of the single-call
phases. -/
structure Env where
  ctx_outcome : TaskOutcome
  news_ok : Bool
  scrape : Nat → Option ScrapeRes
  an1 : TaskRun
  an2 : TaskRun
  an3 : TaskRun
  an4 : TaskRun
  ev1 : TaskRun
  ev2 : TaskRun
  ev3 : TaskRun
  ev4 : TaskRun
  ev5 : TaskRun
  score_outcome : TaskOutcome
  feedback_outcome : TaskOutcome

/-- The startup log message of `_execute_agent_flow` (line 179). -/
def start_flow_msg (n : Nat) : String :=
  "Starting enhanced agent flow for " ++ toString n ++ " URLs"

/-- The truthiness test `scraped_data and scraped_data.get('success')`. -/
def scrape_ok : Option ScrapeRes → Bool
  | some r => r.success
  | none => false

/-- A stop-check suspension point: first an owner stop request may be
processed by the event loop (per the schedule), then the orchestrator
runs `_check_stop_signal`. -/
def stop_gate (sched : Nat → Bool) (idx : Nat) (user_id : Nat) (flow_id : String)
    (s : MState) : MState × Bool :=
  let s1 := if sched idx then (stop_agent_flow s user_id flow_id).1 else s
  check_stop_signal s1 flow_id

/-- The `finally` block of `_execute_agent_flow`: drop the user's
active-flow mapping when it still points at this flow. -/
def finally_cleanup (s : MState) (user_id : Nat) (flow_id : String) : MState :=
  if dget s.active_flows user_id = some flow_id then
    { s with active_flows := derase s.active_flows user_id }
  else s

/-- The sequential ingestion loop of phase 3 (lines 206-223): a stop gate
per URL, then the scrape, keying successes by detected platform and
counting failures.  Returns `none` when a stop gate halted the flow. -/
def ingest_loop (env : Env) (sched : Nat → Bool) (user_id : Nat) (flow_id : String)
    (n : Nat) :
    List String → Nat → List (String × ScrapeRes) → Nat → Nat → MState →
      MState × Option (List (String × ScrapeRes) × Nat × Nat)
  | [], _, acc, completed, failed, s => (s, some (acc, completed, failed))
  | url :: rest, i, acc, completed, failed, s =>
      let g := stop_gate sched (3 + i) user_id flow_id s
      if g.2 then (g.1, none)
      else
        let s1 := log_flow_event g.1 flow_id "INGESTOR"
          ("Scraping source " ++ toString (i + 1) ++ "/" ++ toString n ++ ": " ++ url)
        let scraped := env.scrape i
        if scrape_ok scraped then
          let platform := detect_platform url
          let s2 := log_flow_event s1 flow_id "INGESTOR"
            ("Successfully scraped " ++ platform)
          ingest_loop env sched user_id flow_id n rest (i + 1)
            (dset acc platform (scraped.getD ⟨true, ""⟩)) (completed + 1) failed s2
        else
          let s2 := log_flow_event s1 flow_id "INGESTOR"
            ("Failed to scrape " ++ url)
          ingest_loop env sched user_id flow_id n rest (i + 1)
            acc completed (failed + 1) s2

/-!
`_execute_agent_flow` (lines 174-364) is embedded as one stage function
per pipeline phase; each stage begins right after the stop gate guarding
it passed and either halts at the next gate (running the `finally`
cleanup) or tail-calls the next stage, exactly following the straight-line
source.  `sched` enumerates the suspension points at which a concurrent
owner stop request may be processed: index `k` for the `k`-th stop gate
(per-URL ingestion gates at `3 + i`), and `7 + n` for the window between
the last gate and the final writes (the feedback call is an await).  The
only exception raised inside the try block is the empty-ingestion-map
one, so the except branch is modelled at that point; every exit runs the
`finally` cleanup.
-/

/-- Phase 7 body (lines 312-355): feedback log, feedback call (a
suspension point, hence one more stop opportunity), result assembly, the
COMPLETED writes and the completion log. -/
def exec_finish (env : Env) (sched : Nat → Bool) (user_id : Nat) (flow_id : String)
    (source_urls : List String) (completed_sources failed_sources : Nat)
    (analyzer_results evaluator_results : List TaskOutcome) (s : MState) : MState :=
  let n := source_urls.length
  let s := log_flow_event s flow_id "FEEDBACK"
    "Generating comprehensive enhanced feedback"
  let s := if sched (7 + n) then (stop_agent_flow s user_id flow_id).1 else s
  let final_result : FinalResult :=
    { source_urls := source_urls
      total_sources := n
      completed_sources := completed_sources
      failed_sources := failed_sources
      analysis := analyzer_results
      evaluation := evaluator_results
      score := env.score_outcome
      feedback := env.feedback_outcome }
  let s := { s with flow_results := dset s.flow_results flow_id final_result }
  let s := { s with flow_status := dset s.flow_status flow_id FlowStatus.completed }
  let s := log_flow_event s flow_id "SYSTEM"
    "Enhanced agent flow completed successfully"
  finally_cleanup s user_id flow_id

/-- Phase 6 (lines 295-309): scorer log and call, then the gate before
feedback. -/
def exec_scoring (env : Env) (sched : Nat → Bool) (user_id : Nat) (flow_id : String)
    (source_urls : List String) (completed_sources failed_sources : Nat)
    (analyzer_results evaluator_results : List TaskOutcome) (s : MState) : MState :=
  let n := source_urls.length
  let s := log_flow_event s flow_id "SCORER" "Computing enhanced Blynx Score"
  -- blynx_score := env.score_outcome
  let g6 := stop_gate sched (6 + n) user_id flow_id s
  if g6.2 then finally_cleanup g6.1 user_id flow_id else
  exec_finish env sched user_id flow_id source_urls completed_sources failed_sources
    analyzer_results evaluator_results g6.1

/-- Phase 5 (lines 263-292): evaluator fan-out and fan-in, then the gate
before scoring. -/
def exec_evaluation (env : Env) (sched : Nat → Bool) (user_id : Nat) (flow_id : String)
    (source_urls : List String) (completed_sources failed_sources : Nat)
    (analyzer_results : List TaskOutcome) (s : MState) : MState :=
  let n := source_urls.length
  let s := log_flow_event s flow_id "SYSTEM"
    "Starting enhanced parallel evaluation phase"
  let evaluator_runs := [env.ev1, env.ev2, env.ev3, env.ev4, env.ev5]
  let s := degrade_failure_logs flow_id "EVALUATOR" "Evaluator" s
    (gather_return_exceptions evaluator_runs) 0
  let evaluator_results := degrade_exceptions (gather_return_exceptions evaluator_runs)
  let g5 := stop_gate sched (5 + n) user_id flow_id s
  if g5.2 then finally_cleanup g5.1 user_id flow_id else
  exec_scoring env sched user_id flow_id source_urls completed_sources failed_sources
    analyzer_results evaluator_results g5.1

/-- Phase 4 (lines 234-260): analyzer fan-out and fan-in, then the gate
before evaluation. -/
def exec_analysis (env : Env) (sched : Nat → Bool) (user_id : Nat) (flow_id : String)
    (source_urls : List String) (completed_sources failed_sources : Nat)
    (s : MState) : MState :=
  let n := source_urls.length
  let s := log_flow_event s flow_id "SYSTEM"
    "Starting enhanced parallel analysis phase"
  let analyzer_runs := [env.an1, env.an2, env.an3, env.an4]
  let s := degrade_failure_logs flow_id "ANALYZER" "Analyzer" s
    (gather_return_exceptions analyzer_runs) 0
  let analyzer_results := degrade_exceptions (gather_return_exceptions analyzer_runs)
  let g4 := stop_gate sched (4 + n) user_id flow_id s
  if g4.2 then finally_cleanup g4.1 user_id flow_id else
  exec_evaluation env sched user_id flow_id source_urls completed_sources
    failed_sources analyzer_results g4.1

/-- Phase 3 (lines 201-232): the ingestion marker log, the sequential
per-URL loop, the fatal empty-map exception caught by the except block
(status FAILED, failure log), or the completion log and the gate before
analysis. -/
def exec_ingest (env : Env) (sched : Nat → Bool) (user_id : Nat) (flow_id : String)
    (source_urls : List String) (s : MState) : MState :=
  let n := source_urls.length
  let s := log_flow_event s flow_id "INGESTOR"
    "Starting enhanced multi-source data ingestion"
  let ing := ingest_loop env sched user_id flow_id n source_urls 0 [] 0 0 s
  match ing.2 with
  | none => finally_cleanup ing.1 user_id flow_id
  | some (all_scraped_data, completed_sources, failed_sources) =>
    if all_scraped_data.isEmpty then
      -- raise Exception("No data could be scraped from any source"),
      -- caught by the except block: status FAILED, failure log, finally
      let s := { ing.1 with
        flow_status := dset (ing.1).flow_status flow_id FlowStatus.failed }
      let s := log_flow_event s flow_id "SYSTEM"
        "Agent flow failed: No data could be scraped from any source"
      finally_cleanup s user_id flow_id
    else
      let s := log_flow_event ing.1 flow_id "INGESTOR"
        ("Data ingestion completed for " ++ toString all_scraped_data.length
          ++ " sources")
      let g3 := stop_gate sched (3 + n) user_id flow_id s
      if g3.2 then finally_cleanup g3.1 user_id flow_id else
      exec_analysis env sched user_id flow_id source_urls completed_sources
        failed_sources g3.1

/-- Phase 2 (lines 192-199): news research (the news agent never raises;
its outcome is `env.news_ok`), then the gate before ingestion. -/
def exec_news (env : Env) (sched : Nat → Bool) (user_id : Nat) (flow_id : String)
    (source_urls : List String) (s : MState) : MState :=
  let s := log_flow_event s flow_id "NEWS" "Starting news research"
  let g2 := stop_gate sched 2 user_id flow_id s
  if g2.2 then finally_cleanup g2.1 user_id flow_id else
  exec_ingest env sched user_id flow_id source_urls g2.1

/-- Phase 1 (lines 185-190): business context analysis (its result,
`env.ctx_outcome`, lives only in the local context dict), then the gate
before news research. -/
def exec_ctx (env : Env) (sched : Nat → Bool) (user_id : Nat) (flow_id : String)
    (source_urls : List String) (s : MState) : MState :=
  let s := log_flow_event s flow_id "CONTEXT" "Analyzing business context"
  let g1 := stop_gate sched 1 user_id flow_id s
  if g1.2 then finally_cleanup g1.1 user_id flow_id else
  exec_news env sched user_id flow_id source_urls g1.1

/-- `_execute_agent_flow` entry (lines 176-183): set RUNNING, the startup
log, then the gate before phase 1. -/
def execute_agent_flow (env : Env) (sched : Nat → Bool) (user_id : Nat)
    (flow_id : String) (source_urls : List String) (s0 : MState) : MState :=
  let n := source_urls.length
  let s := { s0 with flow_status := dset s0.flow_status flow_id FlowStatus.running }
  let s := log_flow_event s flow_id "SYSTEM" (start_flow_msg n)
  let g0 := stop_gate sched 0 user_id flow_id s
  if g0.2 then finally_cleanup g0.1 user_id flow_id else
  exec_ctx env sched user_id flow_id source_urls g0.1

/-! ### `ConnectionManager` from `agent_service.py` -/

/-- The WebSocket registry: one dict mapping flow_id to the connection
(connections are identified by an opaque numeric id here). -/
structure CMState where
  active_connections : List (String × Nat)
deriving DecidableEq, Repr

/-- `connect`: `self.active_connections[flow_id] = websocket`. -/
def cm_connect (m : CMState) (flow_id : String) (ws : Nat) : CMState :=
  { active_connections := dset m.active_connections flow_id ws }

/-- `disconnect`: delete the registration when present. -/
def cm_disconnect (m : CMState) (flow_id : String) : CMState :=
  if (dget m.active_connections flow_id).isSome then
    { active_connections := derase m.active_connections flow_id }
  else m

/-- `send_logs` / `send_status` deliver only to
`self.active_connections[flow_id]`: the recipient of an event for
`flow_id`, or nobody when no connection is registered. -/
def cm_send_target (m : CMState) (flow_id : String) : Option Nat :=
  dget m.active_connections flow_id

/-! ### Derived notions used by the theorems -/

/-- The unconditional phase-start log entry of each of the seven pipeline
phases of `_execute_agent_flow`, in execution order: context analysis,
news research, ingestion, parallel analysis, parallel evaluation,
scoring, feedback. -/
def phaseMarker : Nat → LogEntry
  | 0 => ⟨"CONTEXT", "Analyzing business context"⟩
  | 1 => ⟨"NEWS", "Starting news research"⟩
  | 2 => ⟨"INGESTOR", "Starting enhanced multi-source data ingestion"⟩
  | 3 => ⟨"SYSTEM", "Starting enhanced parallel analysis phase"⟩
  | 4 => ⟨"SYSTEM", "Starting enhanced parallel evaluation phase"⟩
  | 5 => ⟨"SCORER", "Computing enhanced Blynx Score"⟩
  | _ => ⟨"FEEDBACK", "Generating comprehensive enhanced feedback"⟩

/-- Log entries produced by stop handling (`stop_agent_flow` and
`_check_stop_signal`). -/
def stop_entryP (e : LogEntry) : Prop :=
  e = ⟨"SYSTEM", "Flow stopped by user"⟩ ∨ e = ⟨"SYSTEM", "Flow stop signal received"⟩

/-- Log entries that the ingestion loop may emit. -/
def loop_entryP (e : LogEntry) : Prop :=
  e.agent = "INGESTOR" ∨ stop_entryP e

/-- `s'` extends the log list of flow `f` in `s` by entries satisfying `P`. -/
def logs_grow (f : String) (P : LogEntry → Prop) (s s' : MState) : Prop :=
  ∃ L, get_flow_logs s' f = get_flow_logs s f ++ L ∧ ∀ e ∈ L, P e

/-- Whether an `Except` result is a success. -/
def exceptOk : Except String MState → Bool
  | Except.ok _ => true
  | Except.error _ => false

/-! ### Concrete states and environments used by witnesses and
counterexamples -/

/-- The set of phase-start markers present in the flow log is exactly
the phases below `k`. -/
def markers_upto (s : MState) (fid : String) (k : Nat) : Prop :=
  ∀ j, j < 7 → (phaseMarker j ∈ get_flow_logs s fid ↔ j < k)

/-- An environment in which every external call succeeds. -/
def ex_env : Env :=
  { ctx_outcome := TaskOutcome.ok "ctx"
    news_ok := true
    scrape := fun _ => some ⟨true, "data"⟩
    an1 := TaskRun.ret "a1"
    an2 := TaskRun.ret "a2"
    an3 := TaskRun.ret "a3"
    an4 := TaskRun.ret "a4"
    ev1 := TaskRun.ret "e1"
    ev2 := TaskRun.ret "e2"
    ev3 := TaskRun.ret "e3"
    ev4 := TaskRun.ret "e4"
    ev5 := TaskRun.ret "e5"
    score_outcome := TaskOutcome.ok "score"
    feedback_outcome := TaskOutcome.ok "feedback" }

/-- `ex_env` with every scrape reporting failure. -/
def ex_env_fail : Env :=
  { ex_env with scrape := fun _ => some ⟨false, "err"⟩ }

/-- A schedule with no concurrent stop request. -/
def sched_none : Nat → Bool := fun _ => false

/-- State after user 1 started flow "flow-a" (whose background task has
not yet run, so the flow is still PENDING). -/
def ex_started : MState :=
  (start_agent_flow MState.empty 1 "flow-a").toOption.getD MState.empty

/-- `ex_started` after the owner issued a stop request. -/
def ex_stopped : MState := (stop_agent_flow ex_started 1 "flow-a").1

/-- `ex_started` with the flow already marked RUNNING (as the background
execution does first). -/
def ex_running : MState :=
  { ex_started with flow_status := dset ex_started.flow_status "flow-a" FlowStatus.running }

/-- `ex_started` after its background execution ran to completion with no
interference. -/
def ex_finished : MState :=
  execute_agent_flow ex_env sched_none 1 "flow-a" ["https://acme.com"] ex_started

end Blynx

namespace Blynx

/-! ## Theorems -/

theorem dget_dset_self {α β : Type} [DecidableEq α] (m : List (α × β)) (k : α) (v : β) :
    dget (dset m k v) k = some v := by
  induction m with
  | nil => simp [dget, dset]
  | cons p rest ih =>
      obtain ⟨k', v'⟩ := p
      by_cases h : k' = k
      · simp [dget, dset, h]
      · simp [dget, dset, h, ih]

theorem dget_dset_ne {α β : Type} [DecidableEq α] (m : List (α × β)) (k k' : α) (v : β)
    (h : k ≠ k') : dget (dset m k v) k' = dget m k' := by
  induction m with
  | nil => simp [dget, dset, h]
  | cons p rest ih =>
      obtain ⟨a, b⟩ := p
      by_cases ha : a = k
      · subst ha
        simp [dget, dset, h]
      · by_cases hb : a = k'
        · subst hb
          simp [dget, dset, ha, Ne.symm h]
        · simp [dget, dset, ha, hb, ih]

theorem dget_derase_self {α β : Type} [DecidableEq α] (m : List (α × β)) (k : α) :
    dget (derase m k) k = none := by
  induction m with
  | nil => simp [dget, derase]
  | cons p rest ih =>
      obtain ⟨a, b⟩ := p
      by_cases h : a = k
      · simpa [derase, h] using ih
      · simpa [derase, h, dget] using ih

theorem dget_derase_ne {α β : Type} [DecidableEq α] (m : List (α × β)) (k k' : α)
    (h : k ≠ k') : dget (derase m k) k' = dget m k' := by
  induction m with
  | nil => simp [dget, derase]
  | cons p rest ih =>
      obtain ⟨a, b⟩ := p
      by_cases ha : a = k
      · subst ha
        simpa [derase, dget, h] using ih
      · by_cases hb : a = k'
        · subst hb
          simp [derase, dget, ha, ih]
        · simp [derase, dget, ha, hb, ih]

theorem dset_ne_nil {α β : Type} [DecidableEq α] (m : List (α × β)) (k : α) (v : β) :
    dset m k v ≠ [] := by
  cases m with
  | nil => simp [dset]
  | cons p rest =>
      obtain ⟨a, b⟩ := p
      by_cases h : a = k <;> simp [dset, h]

theorem log_flow_event_active (s : MState) (f a m : String) :
    (log_flow_event s f a m).active_flows = s.active_flows := rfl

theorem log_flow_event_status (s : MState) (f a m : String) :
    (log_flow_event s f a m).flow_status = s.flow_status := rfl

theorem log_flow_event_results (s : MState) (f a m : String) :
    (log_flow_event s f a m).flow_results = s.flow_results := rfl

theorem log_flow_event_signals (s : MState) (f a m : String) :
    (log_flow_event s f a m).stop_signals = s.stop_signals := rfl

theorem stop_call_active (s : MState) (u : Nat) (fid : String) :
    ((stop_agent_flow s u fid).1).active_flows = s.active_flows := by
  unfold stop_agent_flow
  by_cases h1 : dget s.active_flows u = some fid
  · by_cases h2 : (dget s.stop_signals fid).isSome <;>
      simp [h1, h2, log_flow_event_active]
  · simp [h1]

theorem stop_call_results (s : MState) (u : Nat) (fid : String) :
    ((stop_agent_flow s u fid).1).flow_results = s.flow_results := by
  unfold stop_agent_flow
  by_cases h1 : dget s.active_flows u = some fid
  · by_cases h2 : (dget s.stop_signals fid).isSome <;>
      simp [h1, h2, log_flow_event_results]
  · simp [h1]

theorem check_call_active (s : MState) (fid : String) :
    ((check_stop_signal s fid).1).active_flows = s.active_flows := by
  unfold check_stop_signal
  by_cases h : (dget s.stop_signals fid).getD false <;>
    simp [h, log_flow_event_active]

theorem check_call_results (s : MState) (fid : String) :
    ((check_stop_signal s fid).1).flow_results = s.flow_results := by
  unfold check_stop_signal
  by_cases h : (dget s.stop_signals fid).getD false <;>
    simp [h, log_flow_event_results]

theorem gate_active (sched : Nat → Bool) (k u : Nat) (fid : String) (s : MState) :
    ((stop_gate sched k u fid s).1).active_flows = s.active_flows := by
  unfold stop_gate
  by_cases h : sched k <;>
    simp [h, check_call_active, stop_call_active]

theorem gate_results (sched : Nat → Bool) (k u : Nat) (fid : String) (s : MState) :
    ((stop_gate sched k u fid s).1).flow_results = s.flow_results := by
  unfold stop_gate
  by_cases h : sched k <;>
    simp [h, check_call_results, stop_call_results]

theorem ingest_active (env : Env) (sched : Nat → Bool) (u : Nat) (fid : String) (n : Nat) :
    ∀ (urls : List String) (i : Nat) (acc : List (String × ScrapeRes)) (c fl : Nat)
      (s : MState),
      ((ingest_loop env sched u fid n urls i acc c fl s).1).active_flows =
        s.active_flows := by
  intro urls
  induction urls with
  | nil => intro i acc c fl s; simp [ingest_loop]
  | cons url rest ih =>
      intro i acc c fl s
      unfold ingest_loop
      by_cases hg : (stop_gate sched (3 + i) u fid s).2
      · simp [hg, gate_active]
      · by_cases hs : scrape_ok (env.scrape i) <;>
          simp [hg, hs, ih, log_flow_event_active, gate_active]

theorem ingest_results (env : Env) (sched : Nat → Bool) (u : Nat) (fid : String) (n : Nat) :
    ∀ (urls : List String) (i : Nat) (acc : List (String × ScrapeRes)) (c fl : Nat)
      (s : MState),
      ((ingest_loop env sched u fid n urls i acc c fl s).1).flow_results =
        s.flow_results := by
  intro urls
  induction urls with
  | nil => intro i acc c fl s; simp [ingest_loop]
  | cons url rest ih =>
      intro i acc c fl s
      unfold ingest_loop
      by_cases hg : (stop_gate sched (3 + i) u fid s).2
      · simp [hg, gate_results]
      · by_cases hs : scrape_ok (env.scrape i) <;>
          simp [hg, hs, ih, log_flow_event_results, gate_results]

theorem degrade_active (fid tag word : String) :
    ∀ (rs : List TaskRun) (i : Nat) (s : MState),
      (degrade_failure_logs fid tag word s rs i).active_flows = s.active_flows := by
  intro rs
  induction rs with
  | nil => intro i s; rfl
  | cons r rest ih =>
      intro i s
      cases r <;> simp [degrade_failure_logs, ih, log_flow_event_active]

theorem degrade_results (fid tag word : String) :
    ∀ (rs : List TaskRun) (i : Nat) (s : MState),
      (degrade_failure_logs fid tag word s rs i).flow_results = s.flow_results := by
  intro rs
  induction rs with
  | nil => intro i s; rfl
  | cons r rest ih =>
      intro i s
      cases r <;> simp [degrade_failure_logs, ih, log_flow_event_results]

theorem degrade_signals (fid tag word : String) :
    ∀ (rs : List TaskRun) (i : Nat) (s : MState),
      (degrade_failure_logs fid tag word s rs i).stop_signals = s.stop_signals := by
  intro rs
  induction rs with
  | nil => intro i s; rfl
  | cons r rest ih =>
      intro i s
      cases r <;> simp [degrade_failure_logs, ih, log_flow_event_signals]

theorem degrade_status (fid tag word : String) :
    ∀ (rs : List TaskRun) (i : Nat) (s : MState),
      (degrade_failure_logs fid tag word s rs i).flow_status = s.flow_status := by
  intro rs
  induction rs with
  | nil => intro i s; rfl
  | cons r rest ih =>
      intro i s
      cases r <;> simp [degrade_failure_logs, ih, log_flow_event_status]

theorem finally_cleanup_logs (s : MState) (u : Nat) (fid f : String) :
    get_flow_logs (finally_cleanup s u fid) f = get_flow_logs s f := by
  unfold finally_cleanup
  split <;> rfl

theorem finally_cleanup_status (s : MState) (u : Nat) (fid : String) :
    (finally_cleanup s u fid).flow_status = s.flow_status := by
  unfold finally_cleanup
  split <;> rfl

theorem finally_cleanup_results (s : MState) (u : Nat) (fid : String) :
    (finally_cleanup s u fid).flow_results = s.flow_results := by
  unfold finally_cleanup
  split <;> rfl

theorem finally_cleanup_released (s : MState) (u : Nat) (fid : String)
    (h : dget s.active_flows u = some fid) :
    dget (finally_cleanup s u fid).active_flows u = none := by
  unfold finally_cleanup
  rw [if_pos h]
  exact dget_derase_self _ _

theorem sched_stop_active (c : Bool) (s : MState) (u : Nat) (fid : String) :
    (if c then (stop_agent_flow s u fid).1 else s).active_flows = s.active_flows := by
  by_cases h : c <;> simp [h, stop_call_active]

/-! ### Claim C8: platform detection -/

/-- C8: for every URL string, platform detection is substring containment
on the raw URL and the first match wins in the priority order
instagram.com, then x.com or twitter.com, then linkedin.com, with
landing_page as the default. -/
theorem C8_theorem (url : String) :
    (strContains url "instagram.com" = true → detect_platform url = "instagram") ∧
    (strContains url "instagram.com" = false →
      (strContains url "x.com" = true ∨ strContains url "twitter.com" = true) →
      detect_platform url = "x") ∧
    (strContains url "instagram.com" = false → strContains url "x.com" = false →
      strContains url "twitter.com" = false → strContains url "linkedin.com" = true →
      detect_platform url = "linkedin") ∧
    (strContains url "instagram.com" = false → strContains url "x.com" = false →
      strContains url "twitter.com" = false → strContains url "linkedin.com" = false →
      detect_platform url = "landing_page") := by
  refine ⟨fun h1 => by simp [detect_platform, h1],
    fun h1 h2 => ?_,
    fun h1 h2 h3 h4 => by simp [detect_platform, h1, h2, h3, h4],
    fun h1 h2 h3 h4 => by simp [detect_platform, h1, h2, h3, h4]⟩
  rcases h2 with h2 | h2 <;> simp [detect_platform, h1, h2]

/-- C8 witness: concrete URLs for each priority case, including a URL
containing both instagram.com and x.com, which maps to instagram. -/
theorem C8_witness :
    detect_platform "https://instagram.com/acme?from=x.com" = "instagram" ∧
    detect_platform "https://x.com/acme" = "x" ∧
    detect_platform "https://twitter.com/acme" = "x" ∧
    detect_platform "https://linkedin.com/company/acme" = "linkedin" ∧
    detect_platform "https://acme.example" = "landing_page" :=
  ⟨(C8_theorem _).1 (by decide),
   (C8_theorem _).2.1 (by decide) (Or.inl (by decide)),
   (C8_theorem _).2.1 (by decide) (Or.inr (by decide)),
   (C8_theorem _).2.2.1 (by decide) (by decide) (by decide) (by decide),
   (C8_theorem _).2.2.2 (by decide) (by decide) (by decide) (by decide)⟩

/-! ### Claim C3: fan-out / fan-in coordinator -/

/-- C3: for every fan-out of N tasks, the coordinator (gather with
return_exceptions followed by the degrade loop) yields exactly N outcomes
positionally aligned with the task list; each raising position i becomes
the degraded error value carrying the exception message, and every other
position holds the real result of its task, so one failure never aborts
its siblings or the phase. -/
theorem C3_theorem (tasks : List TaskRun) :
    (degrade_exceptions (gather_return_exceptions tasks)).length = tasks.length ∧
    (∀ (i : Nat) (m : String), tasks[i]? = some (TaskRun.exn m) →
      (degrade_exceptions (gather_return_exceptions tasks))[i]? =
        some (TaskOutcome.err m)) ∧
    (∀ (i : Nat) (v : String), tasks[i]? = some (TaskRun.ret v) →
      (degrade_exceptions (gather_return_exceptions tasks))[i]? =
        some (TaskOutcome.ok v)) := by
  refine ⟨by simp [degrade_exceptions, gather_return_exceptions],
    fun i m h => ?_, fun i v h => ?_⟩ <;>
      simp [degrade_exceptions, gather_return_exceptions, h]

/-- C3 witness: a 3-task fan-out with a failure in the middle. -/
theorem C3_witness :
    (degrade_exceptions (gather_return_exceptions
      [TaskRun.ret "r0", TaskRun.exn "boom", TaskRun.ret "r2"])).length = 3 ∧
    (degrade_exceptions (gather_return_exceptions
      [TaskRun.ret "r0", TaskRun.exn "boom", TaskRun.ret "r2"]))[1]? =
      some (TaskOutcome.err "boom") ∧
    (degrade_exceptions (gather_return_exceptions
      [TaskRun.ret "r0", TaskRun.exn "boom", TaskRun.ret "r2"]))[0]? =
      some (TaskOutcome.ok "r0") :=
  ⟨(C3_theorem [TaskRun.ret "r0", TaskRun.exn "boom", TaskRun.ret "r2"]).1.trans (by decide),
   (C3_theorem [TaskRun.ret "r0", TaskRun.exn "boom", TaskRun.ret "r2"]).2.1 1 "boom" (by decide),
   (C3_theorem [TaskRun.ret "r0", TaskRun.exn "boom", TaskRun.ret "r2"]).2.2 0 "r0" (by decide)⟩

/-! ### Claim C10: the WebSocket registry holds one observer per flow -/

/-- C10: the progress publisher holds at most one registered observer per
flow_id; registering a second connection for the same flow_id overwrites
the first, after which events for that flow are delivered only to the
second connection and the first receives nothing, although it was never
disconnected. -/
theorem C10_theorem (m : CMState) (fid : String) (w1 w2 : Nat) :
    cm_send_target (cm_connect (cm_connect m fid w1) fid w2) fid = some w2 ∧
    (w1 ≠ w2 →
      cm_send_target (cm_connect (cm_connect m fid w1) fid w2) fid ≠ some w1) ∧
    (∀ gid, gid ≠ fid →
      cm_send_target (cm_connect (cm_connect m fid w1) fid w2) gid =
        cm_send_target m gid) := by
  refine ⟨by simp [cm_send_target, cm_connect, dget_dset_self], fun hne => ?_, fun gid hg => ?_⟩
  · simp [cm_send_target, cm_connect, dget_dset_self]
    exact Ne.symm hne
  · simp [cm_send_target, cm_connect,
      dget_dset_ne _ fid gid _ (Ne.symm hg)]

/-- C10 witness: double registration on a fresh registry. -/
theorem C10_witness :
    cm_send_target (cm_connect (cm_connect ⟨[]⟩ "flow-a" 10) "flow-a" 20) "flow-a" =
      some 20 ∧
    cm_send_target (cm_connect (cm_connect ⟨[]⟩ "flow-a" 10) "flow-a" 20) "flow-a" ≠
      some 10 ∧
    cm_send_target (cm_connect (cm_connect ⟨[]⟩ "flow-a" 10) "flow-a" 20) "other" =
      cm_send_target ⟨[]⟩ "other" :=
  ⟨(C10_theorem ⟨[]⟩ "flow-a" 10 20).1,
   (C10_theorem ⟨[]⟩ "flow-a" 10 20).2.1 (by decide),
   (C10_theorem ⟨[]⟩ "flow-a" 10 20).2.2 "other" (by decide)⟩

/-! ### Claim C9: reads of an absent flow -/

/-- C9 counterexample: for a freshly created flow (exists, empty logs, no
result yet), get_flow_logs and get_flow_result return exactly the same
values as for a flow_id that was never created, so those two reads do not
distinguish absent from existing-but-empty; only get_flow_status does. -/
theorem C9_counterexample :
    get_flow_status ex_started "flow-a" = some FlowStatus.pending ∧
    get_flow_logs ex_started "flow-a" = [] ∧
    get_flow_logs ex_started "missing" = [] ∧
    get_flow_result ex_started "flow-a" = none ∧
    get_flow_result ex_started "missing" = none := by decide

/-- C9 amended: only get_flow_status yields a not-found signal (none)
distinguishable from any created flow (which always has some status);
get_flow_logs returns the empty list both for an absent flow and for an
existing flow with empty logs, and get_flow_result returns none both for
an absent flow and for an existing flow whose result is not yet set. -/
theorem C9_theorem (s : MState) (u : Nat) (fid gid : String)
    (hne : fid ≠ gid)
    (hg_status : dget s.flow_status gid = none)
    (hg_logs : dget s.flow_logs gid = none)
    (hf_res : dget s.flow_results fid = none)
    (hg_res : dget s.flow_results gid = none) :
    get_flow_status (register_flow s u fid) fid = some FlowStatus.pending ∧
    get_flow_status (register_flow s u fid) gid = none ∧
    get_flow_logs (register_flow s u fid) fid = [] ∧
    get_flow_logs (register_flow s u fid) gid = [] ∧
    get_flow_result (register_flow s u fid) fid = none ∧
    get_flow_result (register_flow s u fid) gid = none := by
  refine ⟨?_, ?_, ?_, ?_, ?_, ?_⟩
  · simp [get_flow_status, register_flow, dget_dset_self]
  · simp [get_flow_status, register_flow, dget_dset_ne _ fid gid _ hne, hg_status]
  · simp [get_flow_logs, register_flow, dget_dset_self]
  · simp [get_flow_logs, register_flow, dget_dset_ne _ fid gid _ hne, hg_logs]
  · simpa [get_flow_result, register_flow] using hf_res
  · simpa [get_flow_result, register_flow] using hg_res

/-- C9 witness: registration on the empty manager state. -/
theorem C9_witness :
    get_flow_status (register_flow MState.empty 1 "flow-a") "flow-a" =
      some FlowStatus.pending ∧
    get_flow_status (register_flow MState.empty 1 "flow-a") "missing" = none ∧
    get_flow_logs (register_flow MState.empty 1 "flow-a") "flow-a" = [] ∧
    get_flow_logs (register_flow MState.empty 1 "flow-a") "missing" = [] ∧
    get_flow_result (register_flow MState.empty 1 "flow-a") "flow-a" = none ∧
    get_flow_result (register_flow MState.empty 1 "flow-a") "missing" = none :=
  C9_theorem MState.empty 1 "flow-a" "missing" (by decide) (by decide) (by decide)
    (by decide) (by decide)

/-! ### Claim C5: stop_agent_flow semantics -/

/-- C5 counterexample: a stop request on a flow that is already in the
terminal STOPPED status (but whose active slot is still held, because the
background task has not yet reached its cleanup) takes effect again and
returns true, contradicting the claim that the call returns true only
when the flow is not already terminal. -/
theorem C5_counterexample :
    get_flow_status ex_stopped "flow-a" = some FlowStatus.stopped ∧
    (stop_agent_flow ex_stopped 1 "flow-a").2 = true := by decide

/-- C5 amended: stop_agent_flow returns true exactly when the requesting
user owns the active-flow mapping for flow_id and the flow has a
stop-signal entry, regardless of whether the flow is already terminal;
when it returns true it sets the stop flag and forces status STOPPED, and
when it returns false (in particular for any non-owning user) it is a
no-op leaving the state unchanged. -/
theorem C5_theorem (s : MState) (u : Nat) (fid : String) :
    ((stop_agent_flow s u fid).2 = true ↔
      dget s.active_flows u = some fid ∧ (dget s.stop_signals fid).isSome = true) ∧
    ((stop_agent_flow s u fid).2 = true →
      dget (stop_agent_flow s u fid).1.stop_signals fid = some true ∧
      dget (stop_agent_flow s u fid).1.flow_status fid = some FlowStatus.stopped) ∧
    ((stop_agent_flow s u fid).2 = false → (stop_agent_flow s u fid).1 = s) := by
  by_cases h1 : dget s.active_flows u = some fid
  · by_cases h2 : (dget s.stop_signals fid).isSome
    · refine ⟨by simp [stop_agent_flow, h1, h2], fun _ => ?_, fun hf => ?_⟩
      · constructor
        · simp [stop_agent_flow, h1, h2, log_flow_event_signals, dget_dset_self]
        · simp [stop_agent_flow, h1, h2, log_flow_event_status, dget_dset_self]
      · exact absurd hf (by simp [stop_agent_flow, h1, h2])
    · refine ⟨by simp [stop_agent_flow, h1, h2], fun ht => ?_, fun _ => ?_⟩
      · exact absurd ht (by simp [stop_agent_flow, h1, h2])
      · simp [stop_agent_flow, h1, h2]
  · refine ⟨by simp [stop_agent_flow, h1], fun ht => ?_, fun _ => ?_⟩
    · exact absurd ht (by simp [stop_agent_flow, h1])
    · simp [stop_agent_flow, h1]

/-- C5 witness: an effective stop by the owner and a rejected no-op stop
by a different user on the same fresh flow. -/
theorem C5_witness :
    dget (stop_agent_flow ex_started 1 "flow-a").1.stop_signals "flow-a" = some true ∧
    dget (stop_agent_flow ex_started 1 "flow-a").1.flow_status "flow-a" =
      some FlowStatus.stopped ∧
    (stop_agent_flow ex_started 2 "flow-a").1 = ex_started :=
  ⟨((C5_theorem ex_started 1 "flow-a").2.1 (by decide)).1,
   ((C5_theorem ex_started 1 "flow-a").2.1 (by decide)).2,
   (C5_theorem ex_started 2 "flow-a").2.2 (by decide)⟩

/-! ### Claim C1: starting a second flow -/

/-- C1 counterexample: the conflict check tests only for RUNNING, so a
user whose active flow is still PENDING can start a second flow: the call
succeeds and silently overwrites the active-flow mapping, contradicting
the claim that a PENDING flow also causes a fast conflict failure. -/
theorem C1_counterexample :
    get_flow_status ex_started "flow-a" = some FlowStatus.pending ∧
    dget ex_started.active_flows 1 = some "flow-a" ∧
    exceptOk (start_agent_flow ex_started 1 "flow-b") = true ∧
    (start_agent_flow ex_started 1 "flow-b").toOption.map
      (fun s' => dget s'.active_flows 1) = some (some "flow-b") := by decide

/-- C1 amended: start_agent_flow fails fast with the conflict error, and
performs no mutation, exactly when the user already has an active-flow
mapping whose flow is in status RUNNING; when the mapped flow is in any
other status (in particular PENDING), or when there is no mapping, the
new flow is registered (overwriting the mapping in the former case). -/
theorem C1_theorem (s : MState) (u : Nat) (fid : String) :
    (∀ ex, dget s.active_flows u = some ex →
      dget s.flow_status ex = some FlowStatus.running →
      start_agent_flow s u fid =
        Except.error "User already has an active agent flow running") ∧
    (∀ ex, dget s.active_flows u = some ex →
      dget s.flow_status ex ≠ some FlowStatus.running →
      start_agent_flow s u fid = Except.ok (register_flow s u fid)) ∧
    (dget s.active_flows u = none →
      start_agent_flow s u fid = Except.ok (register_flow s u fid)) := by
  refine ⟨fun ex h1 h2 => by simp [start_agent_flow, h1, h2],
    fun ex h1 h2 => by simp [start_agent_flow, h1, h2],
    fun h => by simp [start_agent_flow, h]⟩

/-- C1 witness: a second start is rejected while the first flow is
RUNNING and accepted while it is merely PENDING. -/
theorem C1_witness :
    start_agent_flow ex_running 1 "flow-b" =
      Except.error "User already has an active agent flow running" ∧
    start_agent_flow ex_started 1 "flow-b" =
      Except.ok (register_flow ex_started 1 "flow-b") :=
  ⟨(C1_theorem ex_running 1 "flow-b").1 "flow-a" (by decide) (by decide),
   (C1_theorem ex_started 1 "flow-b").2.1 "flow-a" (by decide) (by decide)⟩

/-! ### Claim C2: immutability of terminal states -/

/-- C2 counterexample: a stop processed while the flow is still PENDING
puts it into the terminal STOPPED status, yet the background execution
then overwrites the status to RUNNING at startup (and it stays RUNNING
forever, since the execution halts at its first stop gate): a terminal
status is changed by a subsequent operation. -/
theorem C2_counterexample :
    get_flow_status ex_stopped "flow-a" = some FlowStatus.stopped ∧
    get_flow_status
      (execute_agent_flow ex_env sched_none 1 "flow-a" ["https://acme.com"] ex_stopped)
      "flow-a" = some FlowStatus.running := by decide

/-- C2 amended: terminal statuses are not guarded while the background
execution is alive (its status writes can overwrite a concurrent STOPPED,
and an owner stop re-fires on an already STOPPED flow); what does hold is
that once no active-flow mapping points at the flow, which the cleanup of
every exit path guarantees, stop_agent_flow is a rejected no-op returning
false and leaving the stored status, result and logs unchanged, and the
read operations never mutate anything. -/
theorem C2_theorem (s : MState) (fid : String)
    (h : ∀ u, dget s.active_flows u ≠ some fid) (u : Nat) :
    stop_agent_flow s u fid = (s, false) := by
  unfold stop_agent_flow
  simp [h u]

/-- C2 witness: after the background execution of a flow finished, a stop
request for it is a no-op returning false. -/
theorem C2_witness :
    stop_agent_flow ex_finished 1 "flow-a" = (ex_finished, false) :=
  C2_theorem ex_finished "flow-a"
    (fun u => by
      have h : ex_finished.active_flows = [] := by decide
      rw [h]
      simp [dget])
    1

/-! ### Claim C7: unconditional release of the active-flow slot -/

theorem exec_finish_released (env : Env) (sched : Nat → Bool) (u : Nat) (fid : String)
    (urls : List String) (c f : Nat) (ar er : List TaskOutcome) (s : MState)
    (h : dget s.active_flows u = some fid) :
    dget (exec_finish env sched u fid urls c f ar er s).active_flows u = none := by
  simp only [exec_finish]
  exact finally_cleanup_released _ u fid
    (by simpa [sched_stop_active, log_flow_event_active] using h)

theorem exec_scoring_released (env : Env) (sched : Nat → Bool) (u : Nat) (fid : String)
    (urls : List String) (c f : Nat) (ar er : List TaskOutcome) (s : MState)
    (h : dget s.active_flows u = some fid) :
    dget (exec_scoring env sched u fid urls c f ar er s).active_flows u = none := by
  simp only [exec_scoring]
  split
  · exact finally_cleanup_released _ u fid
      (by simpa [gate_active, log_flow_event_active] using h)
  · exact exec_finish_released env sched u fid urls c f ar er _
      (by simpa [gate_active, log_flow_event_active] using h)

theorem exec_evaluation_released (env : Env) (sched : Nat → Bool) (u : Nat)
    (fid : String) (urls : List String) (c f : Nat) (ar : List TaskOutcome) (s : MState)
    (h : dget s.active_flows u = some fid) :
    dget (exec_evaluation env sched u fid urls c f ar s).active_flows u = none := by
  simp only [exec_evaluation]
  split
  · exact finally_cleanup_released _ u fid
      (by simpa [gate_active, degrade_active, log_flow_event_active] using h)
  · exact exec_scoring_released env sched u fid urls c f ar _ _
      (by simpa [gate_active, degrade_active, log_flow_event_active] using h)

theorem exec_analysis_released (env : Env) (sched : Nat → Bool) (u : Nat)
    (fid : String) (urls : List String) (c f : Nat) (s : MState)
    (h : dget s.active_flows u = some fid) :
    dget (exec_analysis env sched u fid urls c f s).active_flows u = none := by
  simp only [exec_analysis]
  split
  · exact finally_cleanup_released _ u fid
      (by simpa [gate_active, degrade_active, log_flow_event_active] using h)
  · exact exec_evaluation_released env sched u fid urls c f _ _
      (by simpa [gate_active, degrade_active, log_flow_event_active] using h)

theorem exec_ingest_released (env : Env) (sched : Nat → Bool) (u : Nat)
    (fid : String) (urls : List String) (s : MState)
    (h : dget s.active_flows u = some fid) :
    dget (exec_ingest env sched u fid urls s).active_flows u = none := by
  simp only [exec_ingest]
  split
  · exact finally_cleanup_released _ u fid
      (by simpa [ingest_active, log_flow_event_active] using h)
  · split
    · exact finally_cleanup_released _ u fid
        (by simpa [ingest_active, log_flow_event_active] using h)
    · split
      · exact finally_cleanup_released _ u fid
          (by simpa [gate_active, ingest_active, log_flow_event_active] using h)
      · exact exec_analysis_released env sched u fid urls _ _ _
          (by simpa [gate_active, ingest_active, log_flow_event_active] using h)

theorem exec_news_released (env : Env) (sched : Nat → Bool) (u : Nat)
    (fid : String) (urls : List String) (s : MState)
    (h : dget s.active_flows u = some fid) :
    dget (exec_news env sched u fid urls s).active_flows u = none := by
  simp only [exec_news]
  split
  · exact finally_cleanup_released _ u fid
      (by simpa [gate_active, log_flow_event_active] using h)
  · exact exec_ingest_released env sched u fid urls _
      (by simpa [gate_active, log_flow_event_active] using h)

theorem exec_ctx_released (env : Env) (sched : Nat → Bool) (u : Nat)
    (fid : String) (urls : List String) (s : MState)
    (h : dget s.active_flows u = some fid) :
    dget (exec_ctx env sched u fid urls s).active_flows u = none := by
  simp only [exec_ctx]
  split
  · exact finally_cleanup_released _ u fid
      (by simpa [gate_active, log_flow_event_active] using h)
  · exact exec_news_released env sched u fid urls _
      (by simpa [gate_active, log_flow_event_active] using h)

/-- C7: for every environment and every stop-request interleaving, when
the background execution exits — via completion, the fatal ingestion
failure caught by the except block, or a stop at any gate — the finally
cleanup releases the active-flow slot of the user, so a subsequent start
for that user succeeds. -/
theorem C7_theorem (env : Env) (sched : Nat → Bool) (u : Nat) (fid : String)
    (urls : List String) (s0 : MState)
    (h : dget s0.active_flows u = some fid) :
    dget (execute_agent_flow env sched u fid urls s0).active_flows u = none ∧
    ∀ gid, exceptOk (start_agent_flow (execute_agent_flow env sched u fid urls s0) u gid) =
      true := by
  have hrel : dget (execute_agent_flow env sched u fid urls s0).active_flows u = none := by
    simp only [execute_agent_flow]
    split
    · exact finally_cleanup_released _ u fid
        (by simpa [gate_active, log_flow_event_active] using h)
    · exact exec_ctx_released env sched u fid urls _
        (by simpa [gate_active, log_flow_event_active] using h)
  refine ⟨hrel, fun gid => ?_⟩
  unfold start_agent_flow
  rw [hrel]
  rfl

/-- C7 witness: the concrete finished flow released the slot and a new
start for the same user succeeds. -/
theorem C7_witness :
    dget ex_finished.active_flows 1 = none ∧
    exceptOk (start_agent_flow ex_finished 1 "flow-b") = true :=
  ⟨(C7_theorem ex_env sched_none 1 "flow-a" ["https://acme.com"] ex_started
      (by decide)).1,
   (C7_theorem ex_env sched_none 1 "flow-a" ["https://acme.com"] ex_started
      (by decide)).2 "flow-b"⟩

/-! ### Log structure lemmas -/

theorem get_flow_logs_log (s : MState) (f a m : String) :
    get_flow_logs (log_flow_event s f a m) f = get_flow_logs s f ++ [⟨a, m⟩] := by
  unfold get_flow_logs log_flow_event
  rw [dget_dset_self]
  rfl

theorem log_logs_mem (s : MState) (f f' a m : String) (e : LogEntry)
    (h : e ∈ get_flow_logs s f) : e ∈ get_flow_logs (log_flow_event s f' a m) f := by
  by_cases hf : f' = f
  · subst hf
    rw [get_flow_logs_log]
    exact List.mem_append_left _ h
  · unfold get_flow_logs log_flow_event
    rw [dget_dset_ne _ _ _ _ hf]
    exact h

theorem stop_logs_mem (s : MState) (u' : Nat) (fid' f : String) (e : LogEntry)
    (h : e ∈ get_flow_logs s f) :
    e ∈ get_flow_logs (stop_agent_flow s u' fid').1 f := by
  unfold stop_agent_flow
  by_cases h1 : dget s.active_flows u' = some fid'
  · by_cases h2 : (dget s.stop_signals fid').isSome
    · have h' : e ∈ get_flow_logs
          ({ s with stop_signals := dset s.stop_signals fid' true,
                    flow_status := dset s.flow_status fid' FlowStatus.stopped } : MState) f := h
      simpa [h1, h2] using log_logs_mem _ f fid' _ _ e h'
    · simpa [h1, h2] using h
  · simpa [h1] using h

theorem check_logs_mem (s : MState) (fid' f : String) (e : LogEntry)
    (h : e ∈ get_flow_logs s f) :
    e ∈ get_flow_logs (check_stop_signal s fid').1 f := by
  unfold check_stop_signal
  by_cases hc : (dget s.stop_signals fid').getD false
  · simpa [hc] using log_logs_mem s f fid' _ _ e h
  · simpa [hc] using h

theorem gate_logs_mem (sched : Nat → Bool) (k u : Nat) (fid' f : String) (s : MState)
    (e : LogEntry) (h : e ∈ get_flow_logs s f) :
    e ∈ get_flow_logs (stop_gate sched k u fid' s).1 f := by
  unfold stop_gate
  by_cases hk : sched k
  · simpa [hk] using check_logs_mem _ fid' f e (stop_logs_mem s u fid' f e h)
  · simpa [hk] using check_logs_mem _ fid' f e h

theorem sched_stop_logs_mem (c : Bool) (s : MState) (u : Nat) (fid' f : String)
    (e : LogEntry) (h : e ∈ get_flow_logs s f) :
    e ∈ get_flow_logs (if c then (stop_agent_flow s u fid').1 else s) f := by
  by_cases hc : c
  · simpa [hc] using stop_logs_mem s u fid' f e h
  · simpa [hc] using h

theorem degrade_logs_mem (fid tag word : String) (e : LogEntry) :
    ∀ (rs : List TaskRun) (i : Nat) (s : MState),
      e ∈ get_flow_logs s fid →
      e ∈ get_flow_logs (degrade_failure_logs fid tag word s rs i) fid := by
  intro rs
  induction rs with
  | nil => intro i s h; exact h
  | cons r rest ih =>
      intro i s h
      cases r with
      | ret v => exact ih (i + 1) s h
      | exn m => exact ih (i + 1) _ (log_logs_mem s fid fid tag _ e h)

/-! ### No-stop executions -/

theorem stop_gate_nostop (sched : Nat → Bool) (k u : Nat) (fid : String) (s : MState)
    (hk : sched k = false) (hflag : (dget s.stop_signals fid).getD false = false) :
    stop_gate sched k u fid s = (s, false) := by
  unfold stop_gate check_stop_signal
  simp [hk, hflag]

/-- Under a schedule with no stop requests and a cleared stop flag, the
ingestion loop never halts: it returns the accumulated map and counters,
leaves all non-log state unchanged, and its map is empty exactly when it
started empty and every attempted scrape failed. -/
theorem ingest_loop_nostop (env : Env) (sched : Nat → Bool) (u : Nat) (fid : String)
    (n : Nat) (hsched : ∀ k, sched k = false) :
    ∀ (urls : List String) (i : Nat) (acc : List (String × ScrapeRes)) (c fl : Nat)
      (s : MState),
      (dget s.stop_signals fid).getD false = false →
      ∃ s' acc' c' fl',
        ingest_loop env sched u fid n urls i acc c fl s = (s', some (acc', c', fl')) ∧
        s'.stop_signals = s.stop_signals ∧
        s'.flow_status = s.flow_status ∧
        s'.flow_results = s.flow_results ∧
        (∀ e, e ∈ get_flow_logs s fid → e ∈ get_flow_logs s' fid) ∧
        (acc' = [] ↔ acc = [] ∧
          ∀ j, j < urls.length → scrape_ok (env.scrape (i + j)) = false) := by
  intro urls
  induction urls with
  | nil =>
      intro i acc c fl s hflag
      exact ⟨s, acc, c, fl, by simp [ingest_loop], rfl, rfl, rfl, fun e he => he, by simp⟩
  | cons url rest ih =>
      intro i acc c fl s hflag
      have hgate : stop_gate sched (3 + i) u fid s = (s, false) :=
        stop_gate_nostop sched (3 + i) u fid s (hsched _) hflag
      by_cases hs : scrape_ok (env.scrape i) = true
      · obtain ⟨s', acc', c', fl', heq, hsig, hstat, hres, hmem, hiff⟩ :=
          ih (i + 1)
            (dset acc (detect_platform url) ((env.scrape i).getD ⟨true, ""⟩))
            (c + 1) fl
            (log_flow_event
              (log_flow_event s fid "INGESTOR"
                ("Scraping source " ++ toString (i + 1) ++ "/" ++ toString n ++ ": " ++ url))
              fid "INGESTOR" ("Successfully scraped " ++ detect_platform url))
            (by simpa [log_flow_event_signals] using hflag)
        refine ⟨s', acc', c', fl', ?_, ?_, ?_, ?_, ?_, ?_⟩
        · simpa [ingest_loop, hgate, hs] using heq
        · simpa [log_flow_event_signals] using hsig
        · simpa [log_flow_event_status] using hstat
        · simpa [log_flow_event_results] using hres
        · intro e he
          exact hmem e (log_logs_mem _ fid fid _ _ e (log_logs_mem _ fid fid _ _ e he))
        · rw [hiff]
          apply iff_of_false
          · rintro ⟨hd, _⟩
            exact dset_ne_nil _ _ _ hd
          · rintro ⟨_, hall⟩
            have h0 := hall 0 (by simp)
            rw [Nat.add_zero] at h0
            rw [hs] at h0
            cases h0
      · obtain ⟨s', acc', c', fl', heq, hsig, hstat, hres, hmem, hiff⟩ :=
          ih (i + 1) acc c (fl + 1)
            (log_flow_event
              (log_flow_event s fid "INGESTOR"
                ("Scraping source " ++ toString (i + 1) ++ "/" ++ toString n ++ ": " ++ url))
              fid "INGESTOR" ("Failed to scrape " ++ url))
            (by simpa [log_flow_event_signals] using hflag)
        have hfi : scrape_ok (env.scrape i) = false := by
          cases hcase : scrape_ok (env.scrape i)
          · rfl
          · exact absurd hcase hs
        refine ⟨s', acc', c', fl', ?_, ?_, ?_, ?_, ?_, ?_⟩
        · simpa [ingest_loop, hgate, hs] using heq
        · simpa [log_flow_event_signals] using hsig
        · simpa [log_flow_event_status] using hstat
        · simpa [log_flow_event_results] using hres
        · intro e he
          exact hmem e (log_logs_mem _ fid fid _ _ e (log_logs_mem _ fid fid _ _ e he))
        · rw [hiff]
          constructor
          · rintro ⟨ha, hall⟩
            refine ⟨ha, fun j hj => ?_⟩
            cases j with
            | zero => simpa using hfi
            | succ j' =>
                have hlt : j' < rest.length := by
                  simpa [Nat.succ_lt_succ_iff] using hj
                have := hall j' hlt
                have harith : i + (j' + 1) = i + 1 + j' := by omega
                rw [harith]
                exact this
          · rintro ⟨ha, hall⟩
            refine ⟨ha, fun j hj => ?_⟩
            have := hall (j + 1) (by simpa [Nat.succ_lt_succ_iff] using hj)
            have harith : i + (j + 1) = i + 1 + j := by omega
            rw [harith] at this
            exact this

theorem exec_finish_completed (env : Env) (sched : Nat → Bool) (u : Nat) (fid : String)
    (urls : List String) (c f : Nat) (ar er : List TaskOutcome) (s : MState) :
    get_flow_status (exec_finish env sched u fid urls c f ar er s) fid =
      some FlowStatus.completed ∧
    ∀ e, e ∈ get_flow_logs s fid →
      e ∈ get_flow_logs (exec_finish env sched u fid urls c f ar er s) fid := by
  constructor
  · simp only [exec_finish]
    simp [get_flow_status, finally_cleanup_status, log_flow_event_status, dget_dset_self]
  · intro e he
    simp only [exec_finish]
    rw [finally_cleanup_logs]
    apply log_logs_mem
    exact sched_stop_logs_mem _ _ u fid fid e (log_logs_mem _ _ _ _ _ e he)

theorem exec_scoring_nostop_eq (env : Env) (sched : Nat → Bool) (u : Nat) (fid : String)
    (urls : List String) (c f : Nat) (ar er : List TaskOutcome) (s : MState)
    (hsched : ∀ k, sched k = false)
    (hflag : (dget s.stop_signals fid).getD false = false) :
    exec_scoring env sched u fid urls c f ar er s =
      exec_finish env sched u fid urls c f ar er
        (log_flow_event s fid "SCORER" "Computing enhanced Blynx Score") := by
  have hg := stop_gate_nostop sched (6 + urls.length) u fid
    (log_flow_event s fid "SCORER" "Computing enhanced Blynx Score") (hsched _)
    (by simpa [log_flow_event_signals] using hflag)
  simp [exec_scoring, hg]

theorem exec_evaluation_nostop_eq (env : Env) (sched : Nat → Bool) (u : Nat)
    (fid : String) (urls : List String) (c f : Nat) (ar : List TaskOutcome) (s : MState)
    (hsched : ∀ k, sched k = false)
    (hflag : (dget s.stop_signals fid).getD false = false) :
    exec_evaluation env sched u fid urls c f ar s =
      exec_scoring env sched u fid urls c f ar
        (degrade_exceptions (gather_return_exceptions
          [env.ev1, env.ev2, env.ev3, env.ev4, env.ev5]))
        (degrade_failure_logs fid "EVALUATOR" "Evaluator"
          (log_flow_event s fid "SYSTEM" "Starting enhanced parallel evaluation phase")
          (gather_return_exceptions [env.ev1, env.ev2, env.ev3, env.ev4, env.ev5]) 0) := by
  have hg := stop_gate_nostop sched (5 + urls.length) u fid
    (degrade_failure_logs fid "EVALUATOR" "Evaluator"
      (log_flow_event s fid "SYSTEM" "Starting enhanced parallel evaluation phase")
      (gather_return_exceptions [env.ev1, env.ev2, env.ev3, env.ev4, env.ev5]) 0)
    (hsched _)
    (by simpa [degrade_signals, log_flow_event_signals] using hflag)
  simp [exec_evaluation, hg]

theorem exec_analysis_nostop_eq (env : Env) (sched : Nat → Bool) (u : Nat)
    (fid : String) (urls : List String) (c f : Nat) (s : MState)
    (hsched : ∀ k, sched k = false)
    (hflag : (dget s.stop_signals fid).getD false = false) :
    exec_analysis env sched u fid urls c f s =
      exec_evaluation env sched u fid urls c f
        (degrade_exceptions (gather_return_exceptions
          [env.an1, env.an2, env.an3, env.an4]))
        (degrade_failure_logs fid "ANALYZER" "Analyzer"
          (log_flow_event s fid "SYSTEM" "Starting enhanced parallel analysis phase")
          (gather_return_exceptions [env.an1, env.an2, env.an3, env.an4]) 0) := by
  have hg := stop_gate_nostop sched (4 + urls.length) u fid
    (degrade_failure_logs fid "ANALYZER" "Analyzer"
      (log_flow_event s fid "SYSTEM" "Starting enhanced parallel analysis phase")
      (gather_return_exceptions [env.an1, env.an2, env.an3, env.an4]) 0)
    (hsched _)
    (by simpa [degrade_signals, log_flow_event_signals] using hflag)
  simp [exec_analysis, hg]

theorem exec_news_nostop_eq (env : Env) (sched : Nat → Bool) (u : Nat)
    (fid : String) (urls : List String) (s : MState)
    (hsched : ∀ k, sched k = false)
    (hflag : (dget s.stop_signals fid).getD false = false) :
    exec_news env sched u fid urls s =
      exec_ingest env sched u fid urls
        (log_flow_event s fid "NEWS" "Starting news research") := by
  have hg := stop_gate_nostop sched 2 u fid
    (log_flow_event s fid "NEWS" "Starting news research") (hsched _)
    (by simpa [log_flow_event_signals] using hflag)
  simp [exec_news, hg]

theorem exec_ctx_nostop_eq (env : Env) (sched : Nat → Bool) (u : Nat)
    (fid : String) (urls : List String) (s : MState)
    (hsched : ∀ k, sched k = false)
    (hflag : (dget s.stop_signals fid).getD false = false) :
    exec_ctx env sched u fid urls s =
      exec_news env sched u fid urls
        (log_flow_event s fid "CONTEXT" "Analyzing business context") := by
  have hg := stop_gate_nostop sched 1 u fid
    (log_flow_event s fid "CONTEXT" "Analyzing business context") (hsched _)
    (by simpa [log_flow_event_signals] using hflag)
  simp [exec_ctx, hg]

theorem execute_nostop_eq (env : Env) (sched : Nat → Bool) (u : Nat)
    (fid : String) (urls : List String) (s0 : MState)
    (hsched : ∀ k, sched k = false)
    (hflag : (dget s0.stop_signals fid).getD false = false) :
    execute_agent_flow env sched u fid urls s0 =
      exec_ctx env sched u fid urls
        (log_flow_event
          { s0 with flow_status := dset s0.flow_status fid FlowStatus.running }
          fid "SYSTEM" (start_flow_msg urls.length)) := by
  have hg := stop_gate_nostop sched 0 u fid
    (log_flow_event
      { s0 with flow_status := dset s0.flow_status fid FlowStatus.running }
      fid "SYSTEM" (start_flow_msg urls.length)) (hsched _)
    (by simpa [log_flow_event_signals] using hflag)
  simp [execute_agent_flow, hg]

/-- Under a no-stop schedule, the analysis stage runs through evaluation,
scoring and feedback to COMPLETED, and its phase marker is in the logs. -/
theorem exec_analysis_nostop_done (env : Env) (sched : Nat → Bool) (u : Nat)
    (fid : String) (urls : List String) (c f : Nat) (s : MState)
    (hsched : ∀ k, sched k = false)
    (hflag : (dget s.stop_signals fid).getD false = false) :
    get_flow_status (exec_analysis env sched u fid urls c f s) fid =
      some FlowStatus.completed ∧
    phaseMarker 3 ∈ get_flow_logs (exec_analysis env sched u fid urls c f s) fid := by
  have e1 := exec_analysis_nostop_eq env sched u fid urls c f s hsched hflag
  have hflag1 : (dget (degrade_failure_logs fid "ANALYZER" "Analyzer"
      (log_flow_event s fid "SYSTEM" "Starting enhanced parallel analysis phase")
      (gather_return_exceptions [env.an1, env.an2, env.an3, env.an4]) 0).stop_signals
        fid).getD false = false := by
    simpa [degrade_signals, log_flow_event_signals] using hflag
  have e2 := exec_evaluation_nostop_eq env sched u fid urls c f
    (degrade_exceptions (gather_return_exceptions [env.an1, env.an2, env.an3, env.an4]))
    (degrade_failure_logs fid "ANALYZER" "Analyzer"
      (log_flow_event s fid "SYSTEM" "Starting enhanced parallel analysis phase")
      (gather_return_exceptions [env.an1, env.an2, env.an3, env.an4]) 0)
    hsched hflag1
  have hflag2 : (dget (degrade_failure_logs fid "EVALUATOR" "Evaluator"
      (log_flow_event
        (degrade_failure_logs fid "ANALYZER" "Analyzer"
          (log_flow_event s fid "SYSTEM" "Starting enhanced parallel analysis phase")
          (gather_return_exceptions [env.an1, env.an2, env.an3, env.an4]) 0)
        fid "SYSTEM" "Starting enhanced parallel evaluation phase")
      (gather_return_exceptions [env.ev1, env.ev2, env.ev3, env.ev4, env.ev5])
      0).stop_signals fid).getD false = false := by
    simpa [degrade_signals, log_flow_event_signals] using hflag
  have e3 := exec_scoring_nostop_eq env sched u fid urls c f
    (degrade_exceptions (gather_return_exceptions [env.an1, env.an2, env.an3, env.an4]))
    (degrade_exceptions (gather_return_exceptions
      [env.ev1, env.ev2, env.ev3, env.ev4, env.ev5]))
    (degrade_failure_logs fid "EVALUATOR" "Evaluator"
      (log_flow_event
        (degrade_failure_logs fid "ANALYZER" "Analyzer"
          (log_flow_event s fid "SYSTEM" "Starting enhanced parallel analysis phase")
          (gather_return_exceptions [env.an1, env.an2, env.an3, env.an4]) 0)
        fid "SYSTEM" "Starting enhanced parallel evaluation phase")
      (gather_return_exceptions [env.ev1, env.ev2, env.ev3, env.ev4, env.ev5]) 0)
    hsched hflag2
  rw [e1, e2, e3]
  constructor
  · exact (exec_finish_completed env sched u fid urls c f _ _ _).1
  · apply (exec_finish_completed env sched u fid urls c f _ _ _).2
    apply log_logs_mem
    apply degrade_logs_mem
    apply log_logs_mem
    apply degrade_logs_mem
    simp [get_flow_logs_log, phaseMarker]

/-- Under a no-stop schedule, the ingestion stage fails the flow exactly
when every scrape failed (storing no result), and proceeds to the
analysis phase and completion when at least one scrape succeeded. -/
theorem exec_ingest_nostop (env : Env) (sched : Nat → Bool) (u : Nat) (fid : String)
    (urls : List String) (s : MState)
    (hsched : ∀ k, sched k = false)
    (hflag : (dget s.stop_signals fid).getD false = false)
    (hresS : dget s.flow_results fid = none) :
    ((∀ i, i < urls.length → scrape_ok (env.scrape i) = false) →
      get_flow_status (exec_ingest env sched u fid urls s) fid =
        some FlowStatus.failed ∧
      get_flow_result (exec_ingest env sched u fid urls s) fid = none) ∧
    ((∃ i, i < urls.length ∧ scrape_ok (env.scrape i) = true) →
      phaseMarker 3 ∈ get_flow_logs (exec_ingest env sched u fid urls s) fid ∧
      get_flow_status (exec_ingest env sched u fid urls s) fid =
        some FlowStatus.completed) := by
  obtain ⟨s', acc', c', fl', heq, hsig, hstat, hres', hmem, hiff⟩ :=
    ingest_loop_nostop env sched u fid urls.length hsched urls 0 [] 0 0
      (log_flow_event s fid "INGESTOR" "Starting enhanced multi-source data ingestion")
      (by simpa [log_flow_event_signals] using hflag)
  constructor
  · intro hall
    have hacc : acc' = [] := hiff.mpr ⟨rfl, fun j hj => by simpa using hall j hj⟩
    have hbody : exec_ingest env sched u fid urls s =
        finally_cleanup
          (log_flow_event
            { s' with flow_status := dset s'.flow_status fid FlowStatus.failed }
            fid "SYSTEM" "Agent flow failed: No data could be scraped from any source")
          u fid := by
      simp only [exec_ingest, heq]
      rw [hacc]
      simp
    rw [hbody]
    constructor
    · simp [get_flow_status, finally_cleanup_status, log_flow_event_status, dget_dset_self]
    · simp only [get_flow_result, finally_cleanup_results, log_flow_event_results]
      show dget s'.flow_results fid = none
      rw [hres']
      exact hresS
  · rintro ⟨i, hi, hsucc⟩
    have hacc : acc' ≠ [] := by
      intro h
      have h2 := (hiff.mp h).2 i hi
      rw [Nat.zero_add] at h2
      rw [hsucc] at h2
      cases h2
    have hie : acc'.isEmpty = false := by
      cases acc' with
      | nil => exact absurd rfl hacc
      | cons a t => rfl
    have hflagX : (dget (log_flow_event s' fid "INGESTOR"
        ("Data ingestion completed for " ++ toString acc'.length ++ " sources")
          ).stop_signals fid).getD false = false := by
      simp only [log_flow_event_signals]
      rw [hsig]
      simpa [log_flow_event_signals] using hflag
    have hg3 := stop_gate_nostop sched (3 + urls.length) u fid
      (log_flow_event s' fid "INGESTOR"
        ("Data ingestion completed for " ++ toString acc'.length ++ " sources"))
      (hsched _) hflagX
    have hbody : exec_ingest env sched u fid urls s =
        exec_analysis env sched u fid urls c' fl'
          (log_flow_event s' fid "INGESTOR"
            ("Data ingestion completed for " ++ toString acc'.length ++ " sources")) := by
      simp only [exec_ingest, heq]
      simp [hie, hg3]
    rw [hbody]
    have hdone := exec_analysis_nostop_done env sched u fid urls c' fl'
      (log_flow_event s' fid "INGESTOR"
        ("Data ingestion completed for " ++ toString acc'.length ++ " sources"))
      hsched hflagX
    exact ⟨hdone.2, hdone.1⟩

/-- C4: with no concurrent stop request, a flow whose ingestion attempts
all source URLs and finds every scrape failing terminates FAILED with no
final result ever stored; and whenever at least one source succeeds the
flow proceeds past ingestion (the parallel analysis marker is logged) and
runs to COMPLETED, so all-sources-failing is the only ingestion failure
mode that aborts the flow. -/
theorem C4_theorem (env : Env) (sched : Nat → Bool) (u : Nat) (fid : String)
    (urls : List String) (s0 : MState)
    (hsched : ∀ k, sched k = false)
    (hflag : (dget s0.stop_signals fid).getD false = false)
    (hres : dget s0.flow_results fid = none) :
    ((∀ i, i < urls.length → scrape_ok (env.scrape i) = false) →
      get_flow_status (execute_agent_flow env sched u fid urls s0) fid =
        some FlowStatus.failed ∧
      get_flow_result (execute_agent_flow env sched u fid urls s0) fid = none) ∧
    ((∃ i, i < urls.length ∧ scrape_ok (env.scrape i) = true) →
      phaseMarker 3 ∈ get_flow_logs (execute_agent_flow env sched u fid urls s0) fid ∧
      get_flow_status (execute_agent_flow env sched u fid urls s0) fid =
        some FlowStatus.completed) := by
  have hrw : execute_agent_flow env sched u fid urls s0 =
      exec_ingest env sched u fid urls
        (log_flow_event
          (log_flow_event
            (log_flow_event
              { s0 with flow_status := dset s0.flow_status fid FlowStatus.running }
              fid "SYSTEM" (start_flow_msg urls.length))
            fid "CONTEXT" "Analyzing business context")
          fid "NEWS" "Starting news research") := by
    rw [execute_nostop_eq env sched u fid urls s0 hsched hflag]
    rw [exec_ctx_nostop_eq env sched u fid urls _ hsched
      (by simpa [log_flow_event_signals] using hflag)]
    rw [exec_news_nostop_eq env sched u fid urls _ hsched
      (by simpa [log_flow_event_signals] using hflag)]
  rw [hrw]
  exact exec_ingest_nostop env sched u fid urls _ hsched
    (by simpa [log_flow_event_signals] using hflag)
    (by simpa [log_flow_event_results] using hres)

/-- C4 witness: a single-URL flow whose scrape fails ends FAILED with no
result, and one whose scrape succeeds logs the analysis marker and ends
COMPLETED. -/
theorem C4_witness :
    get_flow_status (execute_agent_flow ex_env_fail sched_none 1 "flow-a"
      ["https://acme.com"] ex_started) "flow-a" = some FlowStatus.failed ∧
    get_flow_result (execute_agent_flow ex_env_fail sched_none 1 "flow-a"
      ["https://acme.com"] ex_started) "flow-a" = none ∧
    phaseMarker 3 ∈ get_flow_logs (execute_agent_flow ex_env sched_none 1 "flow-a"
      ["https://acme.com"] ex_started) "flow-a" ∧
    get_flow_status (execute_agent_flow ex_env sched_none 1 "flow-a"
      ["https://acme.com"] ex_started) "flow-a" = some FlowStatus.completed := by
  have hA := (C4_theorem ex_env_fail sched_none 1 "flow-a" ["https://acme.com"] ex_started
    (fun _ => rfl) (by decide) (by decide)).1 (fun i _ => rfl)
  have hB := (C4_theorem ex_env sched_none 1 "flow-a" ["https://acme.com"] ex_started
    (fun _ => rfl) (by decide) (by decide)).2 ⟨0, by decide, rfl⟩
  exact ⟨hA.1, hA.2, hB.1, hB.2⟩

/-! ### Claim C6: phases form a prefix, gated by stop checks -/

theorem phaseMarker_inj : ∀ j, j < 7 → ∀ j', j' < 7 →
    (phaseMarker j = phaseMarker j' ↔ j = j') := by decide

theorem marker_ne_stop : ∀ j, j < 7 →
    phaseMarker j ≠ LogEntry.mk "SYSTEM" "Flow stopped by user" ∧
    phaseMarker j ≠ LogEntry.mk "SYSTEM" "Flow stop signal received" := by decide

theorem marker_ne_fail : ∀ j, j < 7 →
    phaseMarker j ≠
      LogEntry.mk "SYSTEM" "Agent flow failed: No data could be scraped from any source" := by
  decide

theorem marker_ne_completed : ∀ j, j < 7 →
    phaseMarker j ≠ LogEntry.mk "SYSTEM" "Enhanced agent flow completed successfully" := by
  decide

theorem marker_notin_stopL (L : List LogEntry) (hL : ∀ e ∈ L, stop_entryP e) :
    ∀ j, j < 7 → phaseMarker j ∉ L := by
  intro j hj hm
  rcases hL _ hm with h | h
  · exact (marker_ne_stop j hj).1 h
  · exact (marker_ne_stop j hj).2 h

theorem marker_notin_loopL (L : List LogEntry) (hL : ∀ e ∈ L, loop_entryP e) :
    ∀ j, 3 ≤ j → j < 7 → phaseMarker j ∉ L := by
  intro j h3 hj hm
  rcases hL _ hm with h | h
  · have hag : (phaseMarker j).agent ≠ "INGESTOR" := by
      interval_cases j <;> decide
    exact hag h
  · rcases h with h | h
    · exact (marker_ne_stop j hj).1 h
    · exact (marker_ne_stop j hj).2 h

theorem marker_notin_tagL (L : List LogEntry) (tag : String)
    (hL : ∀ e ∈ L, e.agent = tag)
    (htag : tag = "ANALYZER" ∨ tag = "EVALUATOR") :
    ∀ j, j < 7 → phaseMarker j ∉ L := by
  intro j hj hm
  have hag := hL _ hm
  rcases htag with h | h <;> subst h <;> revert hag <;> interval_cases j <;> decide

/-- The startup log message differs from every phase marker: its 19th
character is the a of agent, while the two SYSTEM markers have p there,
and the other markers carry a different agent tag. -/
theorem start_flow_msg_ne (n : Nat) (b : String) (hb : b.data[18]? ≠ some 'a') :
    start_flow_msg n ≠ b := by
  intro h
  apply hb
  rw [← h]
  unfold start_flow_msg
  rw [String.data_append, String.data_append]
  have h1 : 18 < ("Starting enhanced agent flow for ".data ++ (toString n).data).length := by
    rw [List.length_append]
    have h33 : ("Starting enhanced agent flow for ").data.length = 33 := by decide
    omega
  rw [List.getElem?_append_left h1]
  have h2 : (18 : Nat) < ("Starting enhanced agent flow for ").data.length := by decide
  rw [List.getElem?_append_left h2]
  decide

theorem marker_ne_start (n : Nat) : ∀ j, j < 7 →
    phaseMarker j ≠ LogEntry.mk "SYSTEM" (start_flow_msg n) := by
  have h3 : start_flow_msg n ≠ "Starting enhanced parallel analysis phase" :=
    start_flow_msg_ne n _ (by decide)
  have h4 : start_flow_msg n ≠ "Starting enhanced parallel evaluation phase" :=
    start_flow_msg_ne n _ (by decide)
  intro j hj
  interval_cases j
  · exact fun h =>
      absurd (show "CONTEXT" = "SYSTEM" from congrArg LogEntry.agent h) (by decide)
  · exact fun h =>
      absurd (show "NEWS" = "SYSTEM" from congrArg LogEntry.agent h) (by decide)
  · exact fun h =>
      absurd (show "INGESTOR" = "SYSTEM" from congrArg LogEntry.agent h) (by decide)
  · exact fun h => h3 (congrArg LogEntry.message h).symm
  · exact fun h => h4 (congrArg LogEntry.message h).symm
  · exact fun h =>
      absurd (show "SCORER" = "SYSTEM" from congrArg LogEntry.agent h) (by decide)
  · exact fun h =>
      absurd (show "FEEDBACK" = "SYSTEM" from congrArg LogEntry.agent h) (by decide)

theorem marker_ne_ingest_entry (m : String) : ∀ j, 3 ≤ j → j < 7 →
    phaseMarker j ≠ LogEntry.mk "INGESTOR" m := by
  intro j h3 hj h
  have hag := congrArg LogEntry.agent h
  interval_cases j
  · exact absurd (show "SYSTEM" = "INGESTOR" from hag) (by decide)
  · exact absurd (show "SYSTEM" = "INGESTOR" from hag) (by decide)
  · exact absurd (show "SCORER" = "INGESTOR" from hag) (by decide)
  · exact absurd (show "FEEDBACK" = "INGESTOR" from hag) (by decide)

/-- Log growth of one `stop_agent_flow` call targeted at `fid`. -/
theorem stop_logs_grow (s : MState) (u' : Nat) (fid : String) :
    ∃ L, get_flow_logs (stop_agent_flow s u' fid).1 fid = get_flow_logs s fid ++ L ∧
      ∀ e ∈ L, stop_entryP e := by
  unfold stop_agent_flow
  by_cases h1 : dget s.active_flows u' = some fid
  · by_cases h2 : (dget s.stop_signals fid).isSome
    · refine ⟨[LogEntry.mk "SYSTEM" "Flow stopped by user"], ?_, ?_⟩
      · simp only [h1, h2]
        have : get_flow_logs
            ({ s with stop_signals := dset s.stop_signals fid true,
                      flow_status := dset s.flow_status fid FlowStatus.stopped } : MState)
              fid = get_flow_logs s fid := rfl
        simp [get_flow_logs_log, this]
      · intro e he
        rw [List.mem_singleton] at he
        subst he
        exact Or.inl rfl
    · refine ⟨[], by simp [h1, h2], by simp⟩
  · refine ⟨[], by simp [h1], by simp⟩

/-- Log growth of one `_check_stop_signal` call. -/
theorem check_logs_grow (s : MState) (fid : String) :
    ∃ L, get_flow_logs (check_stop_signal s fid).1 fid = get_flow_logs s fid ++ L ∧
      ∀ e ∈ L, stop_entryP e := by
  unfold check_stop_signal
  by_cases hc : (dget s.stop_signals fid).getD false
  · refine ⟨[LogEntry.mk "SYSTEM" "Flow stop signal received"], ?_, ?_⟩
    · simp [hc, get_flow_logs_log]
    · intro e he
      rw [List.mem_singleton] at he
      subst he
      exact Or.inr rfl
  · refine ⟨[], by simp [hc], by simp⟩

/-- Log growth of one stop gate. -/
theorem gate_logs_grow (sched : Nat → Bool) (k u : Nat) (fid : String) (s : MState) :
    ∃ L, get_flow_logs (stop_gate sched k u fid s).1 fid = get_flow_logs s fid ++ L ∧
      ∀ e ∈ L, stop_entryP e := by
  unfold stop_gate
  by_cases hk : sched k
  · obtain ⟨L1, hL1, hP1⟩ := stop_logs_grow s u fid
    obtain ⟨L2, hL2, hP2⟩ := check_logs_grow (stop_agent_flow s u fid).1 fid
    refine ⟨L1 ++ L2, ?_, ?_⟩
    · simp only [hk, if_true]
      rw [hL2, hL1, List.append_assoc]
    · intro e he
      rcases List.mem_append.mp he with h | h
      · exact hP1 _ h
      · exact hP2 _ h
  · obtain ⟨L2, hL2, hP2⟩ := check_logs_grow s fid
    refine ⟨L2, ?_, hP2⟩
    simp only [hk, if_false]
    exact hL2

/-- Log growth of a conditional stop at a non-gate suspension point. -/
theorem sched_stop_logs_grow (c : Bool) (s : MState) (u : Nat) (fid : String) :
    ∃ L, get_flow_logs (if c then (stop_agent_flow s u fid).1 else s) fid =
      get_flow_logs s fid ++ L ∧ ∀ e ∈ L, stop_entryP e := by
  by_cases hc : c
  · obtain ⟨L, hL, hP⟩ := stop_logs_grow s u fid
    exact ⟨L, by simpa [hc] using hL, hP⟩
  · exact ⟨[], by simp [hc], by simp⟩

/-- Log growth of one degrade fan-in loop: every appended entry bears the
phase tag. -/
theorem degrade_logs_grow (fid tag word : String) :
    ∀ (rs : List TaskRun) (i : Nat) (s : MState),
      ∃ L, get_flow_logs (degrade_failure_logs fid tag word s rs i) fid =
        get_flow_logs s fid ++ L ∧ ∀ e ∈ L, e.agent = tag := by
  intro rs
  induction rs with
  | nil => intro i s; exact ⟨[], by simp [degrade_failure_logs], by simp⟩
  | cons r rest ih =>
      intro i s
      cases r with
      | ret v =>
          obtain ⟨L, hL, hP⟩ := ih (i + 1) s
          exact ⟨L, by simpa [degrade_failure_logs] using hL, hP⟩
      | exn m =>
          obtain ⟨L, hL, hP⟩ := ih (i + 1)
            (log_flow_event s fid tag
              (word ++ " " ++ toString (i + 1) ++ " failed: " ++ m))
          refine ⟨LogEntry.mk tag (word ++ " " ++ toString (i + 1) ++ " failed: " ++ m) :: L,
            ?_, ?_⟩
          · have hstep : get_flow_logs (degrade_failure_logs fid tag word
                (log_flow_event s fid tag
                  (word ++ " " ++ toString (i + 1) ++ " failed: " ++ m)) rest (i + 1)) fid =
                get_flow_logs s fid ++
                  (LogEntry.mk tag (word ++ " " ++ toString (i + 1) ++ " failed: " ++ m) :: L) := by
              rw [hL, get_flow_logs_log, List.append_assoc]
              rfl
            simpa [degrade_failure_logs] using hstep
          · intro e he
            rcases List.mem_cons.mp he with h | h
            · subst h; rfl
            · exact hP _ h

/-- Log growth of the ingestion loop: every appended entry is either
INGESTOR-tagged or a stop-handling entry. -/
theorem ingest_logs_grow (env : Env) (sched : Nat → Bool) (u : Nat) (fid : String)
    (n : Nat) :
    ∀ (urls : List String) (i : Nat) (acc : List (String × ScrapeRes)) (c fl : Nat)
      (s : MState),
      ∃ L, get_flow_logs (ingest_loop env sched u fid n urls i acc c fl s).1 fid =
        get_flow_logs s fid ++ L ∧ ∀ e ∈ L, loop_entryP e := by
  intro urls
  induction urls with
  | nil => intro i acc c fl s; exact ⟨[], by simp [ingest_loop], by simp⟩
  | cons url rest ih =>
      intro i acc c fl s
      obtain ⟨L0, hL0, hP0⟩ := gate_logs_grow sched (3 + i) u fid s
      by_cases hg : (stop_gate sched (3 + i) u fid s).2
      · refine ⟨L0, ?_, fun e he => Or.inr (hP0 e he)⟩
        simp only [ingest_loop, hg, if_true]
        exact hL0
      · by_cases hs : scrape_ok (env.scrape i)
        · obtain ⟨L1, hL1, hP1⟩ := ih (i + 1)
            (dset acc (detect_platform url) ((env.scrape i).getD ⟨true, ""⟩)) (c + 1) fl
            (log_flow_event
              (log_flow_event (stop_gate sched (3 + i) u fid s).1 fid "INGESTOR"
                ("Scraping source " ++ toString (i + 1) ++ "/" ++ toString n ++ ": " ++ url))
              fid "INGESTOR" ("Successfully scraped " ++ detect_platform url))
          refine ⟨L0 ++
            ([LogEntry.mk "INGESTOR"
                ("Scraping source " ++ toString (i + 1) ++ "/" ++ toString n ++ ": " ++ url),
              LogEntry.mk "INGESTOR" ("Successfully scraped " ++ detect_platform url)] ++ L1),
            ?_, ?_⟩
          · have hbody : (ingest_loop env sched u fid n (url :: rest) i acc c fl s).1 =
                (ingest_loop env sched u fid n rest (i + 1)
                  (dset acc (detect_platform url) ((env.scrape i).getD ⟨true, ""⟩)) (c + 1) fl
                  (log_flow_event
                    (log_flow_event (stop_gate sched (3 + i) u fid s).1 fid "INGESTOR"
                      ("Scraping source " ++ toString (i + 1) ++ "/" ++ toString n ++ ": " ++ url))
                    fid "INGESTOR" ("Successfully scraped " ++ detect_platform url))).1 := by
              simp [ingest_loop, hg, hs]
            rw [hbody, hL1, get_flow_logs_log, get_flow_logs_log, hL0]
            simp [List.append_assoc]
          · intro e he
            rcases List.mem_append.mp he with h | h
            · exact Or.inr (hP0 e h)
            · rcases List.mem_append.mp h with h | h
              · rcases List.mem_cons.mp h with h | h
                · subst h; exact Or.inl rfl
                · rw [List.mem_singleton] at h
                  subst h; exact Or.inl rfl
              · exact hP1 e h
        · obtain ⟨L1, hL1, hP1⟩ := ih (i + 1) acc c (fl + 1)
            (log_flow_event
              (log_flow_event (stop_gate sched (3 + i) u fid s).1 fid "INGESTOR"
                ("Scraping source " ++ toString (i + 1) ++ "/" ++ toString n ++ ": " ++ url))
              fid "INGESTOR" ("Failed to scrape " ++ url))
          refine ⟨L0 ++
            ([LogEntry.mk "INGESTOR"
                ("Scraping source " ++ toString (i + 1) ++ "/" ++ toString n ++ ": " ++ url),
              LogEntry.mk "INGESTOR" ("Failed to scrape " ++ url)] ++ L1),
            ?_, ?_⟩
          · have hbody : (ingest_loop env sched u fid n (url :: rest) i acc c fl s).1 =
                (ingest_loop env sched u fid n rest (i + 1) acc c (fl + 1)
                  (log_flow_event
                    (log_flow_event (stop_gate sched (3 + i) u fid s).1 fid "INGESTOR"
                      ("Scraping source " ++ toString (i + 1) ++ "/" ++ toString n ++ ": " ++ url))
                    fid "INGESTOR" ("Failed to scrape " ++ url))).1 := by
              simp [ingest_loop, hg, hs]
            rw [hbody, hL1, get_flow_logs_log, get_flow_logs_log, hL0]
            simp [List.append_assoc]
          · intro e he
            rcases List.mem_append.mp he with h | h
            · exact Or.inr (hP0 e h)
            · rcases List.mem_append.mp h with h | h
              · rcases List.mem_cons.mp h with h | h
                · subst h; exact Or.inl rfl
                · rw [List.mem_singleton] at h
                  subst h; exact Or.inl rfl
              · exact hP1 e h

theorem markers_upto_append_noise_ge (s s' : MState) (fid : String) (k : Nat)
    (hin : markers_upto s fid k) (L : List LogEntry)
    (hL : get_flow_logs s' fid = get_flow_logs s fid ++ L)
    (hnoise : ∀ j, k ≤ j → j < 7 → phaseMarker j ∉ L) :
    markers_upto s' fid k := by
  intro j hj
  rw [hL, List.mem_append]
  constructor
  · rintro (h | h)
    · exact (hin j hj).mp h
    · by_cases hjk : j < k
      · exact hjk
      · exact absurd h (hnoise j (by omega) hj)
  · intro h
    exact Or.inl ((hin j hj).mpr h)

theorem markers_upto_log_marker (s : MState) (fid : String) (k : Nat) (hk : k < 7)
    (hin : markers_upto s fid k) :
    markers_upto
      (log_flow_event s fid (phaseMarker k).agent (phaseMarker k).message) fid (k + 1) := by
  intro j hj
  rw [get_flow_logs_log, List.mem_append]
  constructor
  · rintro (h | h)
    · have := (hin j hj).mp h
      omega
    · rw [List.mem_singleton] at h
      have hjk := (phaseMarker_inj j hj k hk).mp h
      omega
  · intro h
    by_cases hjk : j < k
    · exact Or.inl ((hin j hj).mpr hjk)
    · have hj2 : j = k := by omega
      subst hj2
      exact Or.inr (List.mem_singleton.mpr rfl)

theorem exec_finish_markers (env : Env) (sched : Nat → Bool) (u : Nat) (fid : String)
    (urls : List String) (c f : Nat) (ar er : List TaskOutcome) (s : MState)
    (hin : markers_upto s fid 6) :
    markers_upto (exec_finish env sched u fid urls c f ar er s) fid 7 := by
  intro j hj
  refine ⟨fun _ => hj, fun _ => ?_⟩
  have hbase : phaseMarker j ∈ get_flow_logs
      (log_flow_event s fid "FEEDBACK" "Generating comprehensive enhanced feedback") fid := by
    by_cases hj6 : j < 6
    · exact log_logs_mem _ _ _ _ _ _ ((hin j hj).mpr hj6)
    · have hj2 : j = 6 := by omega
      subst hj2
      rw [get_flow_logs_log]
      exact List.mem_append_right _ (List.mem_singleton.mpr rfl)
  simp only [exec_finish]
  rw [finally_cleanup_logs]
  apply log_logs_mem
  exact sched_stop_logs_mem _ _ _ _ _ _ hbase

theorem exec_scoring_markers (env : Env) (sched : Nat → Bool) (u : Nat) (fid : String)
    (urls : List String) (c f : Nat) (ar er : List TaskOutcome) (s : MState)
    (hin : markers_upto s fid 5) :
    ∃ p, p ≤ 7 ∧ markers_upto (exec_scoring env sched u fid urls c f ar er s) fid p := by
  have h1 : markers_upto
      (log_flow_event s fid "SCORER" "Computing enhanced Blynx Score") fid 6 :=
    markers_upto_log_marker s fid 5 (by omega) hin
  obtain ⟨L, hL, hP⟩ := gate_logs_grow sched (6 + urls.length) u fid
    (log_flow_event s fid "SCORER" "Computing enhanced Blynx Score")
  have h2 : markers_upto (stop_gate sched (6 + urls.length) u fid
      (log_flow_event s fid "SCORER" "Computing enhanced Blynx Score")).1 fid 6 :=
    markers_upto_append_noise_ge _ _ fid 6 h1 L hL
      (fun j _ hj => marker_notin_stopL L hP j hj)
  simp only [exec_scoring]
  by_cases hg : (stop_gate sched (6 + urls.length) u fid
      (log_flow_event s fid "SCORER" "Computing enhanced Blynx Score")).2 = true
  · rw [if_pos hg]
    exact ⟨6, by omega, fun j hj => by rw [finally_cleanup_logs]; exact h2 j hj⟩
  · rw [if_neg hg]
    exact ⟨7, by omega, exec_finish_markers env sched u fid urls c f ar er _ h2⟩

theorem exec_evaluation_markers (env : Env) (sched : Nat → Bool) (u : Nat)
    (fid : String) (urls : List String) (c f : Nat) (ar : List TaskOutcome) (s : MState)
    (hin : markers_upto s fid 4) :
    ∃ p, p ≤ 7 ∧ markers_upto (exec_evaluation env sched u fid urls c f ar s) fid p := by
  have h1 : markers_upto (log_flow_event s fid "SYSTEM"
      "Starting enhanced parallel evaluation phase") fid 5 :=
    markers_upto_log_marker s fid 4 (by omega) hin
  obtain ⟨L1, hL1, hP1⟩ := degrade_logs_grow fid "EVALUATOR" "Evaluator"
    (gather_return_exceptions [env.ev1, env.ev2, env.ev3, env.ev4, env.ev5]) 0
    (log_flow_event s fid "SYSTEM" "Starting enhanced parallel evaluation phase")
  have h2 : markers_upto (degrade_failure_logs fid "EVALUATOR" "Evaluator"
      (log_flow_event s fid "SYSTEM" "Starting enhanced parallel evaluation phase")
      (gather_return_exceptions [env.ev1, env.ev2, env.ev3, env.ev4, env.ev5]) 0) fid 5 :=
    markers_upto_append_noise_ge _ _ fid 5 h1 L1 hL1
      (fun j _ hj => marker_notin_tagL L1 "EVALUATOR" hP1 (Or.inr rfl) j hj)
  obtain ⟨L2, hL2, hP2⟩ := gate_logs_grow sched (5 + urls.length) u fid
    (degrade_failure_logs fid "EVALUATOR" "Evaluator"
      (log_flow_event s fid "SYSTEM" "Starting enhanced parallel evaluation phase")
      (gather_return_exceptions [env.ev1, env.ev2, env.ev3, env.ev4, env.ev5]) 0)
  have h3 : markers_upto (stop_gate sched (5 + urls.length) u fid
      (degrade_failure_logs fid "EVALUATOR" "Evaluator"
        (log_flow_event s fid "SYSTEM" "Starting enhanced parallel evaluation phase")
        (gather_return_exceptions [env.ev1, env.ev2, env.ev3, env.ev4, env.ev5]) 0)).1
      fid 5 :=
    markers_upto_append_noise_ge _ _ fid 5 h2 L2 hL2
      (fun j _ hj => marker_notin_stopL L2 hP2 j hj)
  simp only [exec_evaluation]
  by_cases hg : (stop_gate sched (5 + urls.length) u fid
      (degrade_failure_logs fid "EVALUATOR" "Evaluator"
        (log_flow_event s fid "SYSTEM" "Starting enhanced parallel evaluation phase")
        (gather_return_exceptions [env.ev1, env.ev2, env.ev3, env.ev4, env.ev5]) 0)).2 = true
  · rw [if_pos hg]
    exact ⟨5, by omega, fun j hj => by rw [finally_cleanup_logs]; exact h3 j hj⟩
  · rw [if_neg hg]
    exact exec_scoring_markers env sched u fid urls c f ar _ _ h3

theorem exec_analysis_markers (env : Env) (sched : Nat → Bool) (u : Nat)
    (fid : String) (urls : List String) (c f : Nat) (s : MState)
    (hin : markers_upto s fid 3) :
    ∃ p, p ≤ 7 ∧ markers_upto (exec_analysis env sched u fid urls c f s) fid p := by
  have h1 : markers_upto (log_flow_event s fid "SYSTEM"
      "Starting enhanced parallel analysis phase") fid 4 :=
    markers_upto_log_marker s fid 3 (by omega) hin
  obtain ⟨L1, hL1, hP1⟩ := degrade_logs_grow fid "ANALYZER" "Analyzer"
    (gather_return_exceptions [env.an1, env.an2, env.an3, env.an4]) 0
    (log_flow_event s fid "SYSTEM" "Starting enhanced parallel analysis phase")
  have h2 : markers_upto (degrade_failure_logs fid "ANALYZER" "Analyzer"
      (log_flow_event s fid "SYSTEM" "Starting enhanced parallel analysis phase")
      (gather_return_exceptions [env.an1, env.an2, env.an3, env.an4]) 0) fid 4 :=
    markers_upto_append_noise_ge _ _ fid 4 h1 L1 hL1
      (fun j _ hj => marker_notin_tagL L1 "ANALYZER" hP1 (Or.inl rfl) j hj)
  obtain ⟨L2, hL2, hP2⟩ := gate_logs_grow sched (4 + urls.length) u fid
    (degrade_failure_logs fid "ANALYZER" "Analyzer"
      (log_flow_event s fid "SYSTEM" "Starting enhanced parallel analysis phase")
      (gather_return_exceptions [env.an1, env.an2, env.an3, env.an4]) 0)
  have h3 : markers_upto (stop_gate sched (4 + urls.length) u fid
      (degrade_failure_logs fid "ANALYZER" "Analyzer"
        (log_flow_event s fid "SYSTEM" "Starting enhanced parallel analysis phase")
        (gather_return_exceptions [env.an1, env.an2, env.an3, env.an4]) 0)).1 fid 4 :=
    markers_upto_append_noise_ge _ _ fid 4 h2 L2 hL2
      (fun j _ hj => marker_notin_stopL L2 hP2 j hj)
  simp only [exec_analysis]
  by_cases hg : (stop_gate sched (4 + urls.length) u fid
      (degrade_failure_logs fid "ANALYZER" "Analyzer"
        (log_flow_event s fid "SYSTEM" "Starting enhanced parallel analysis phase")
        (gather_return_exceptions [env.an1, env.an2, env.an3, env.an4]) 0)).2 = true
  · rw [if_pos hg]
    exact ⟨4, by omega, fun j hj => by rw [finally_cleanup_logs]; exact h3 j hj⟩
  · rw [if_neg hg]
    exact exec_evaluation_markers env sched u fid urls c f _ _ h3

theorem exec_ingest_markers (env : Env) (sched : Nat → Bool) (u : Nat)
    (fid : String) (urls : List String) (s : MState)
    (hin : markers_upto s fid 2) :
    ∃ p, p ≤ 7 ∧ markers_upto (exec_ingest env sched u fid urls s) fid p := by
  have h1 : markers_upto (log_flow_event s fid "INGESTOR"
      "Starting enhanced multi-source data ingestion") fid 3 :=
    markers_upto_log_marker s fid 2 (by omega) hin
  obtain ⟨L, hL, hP⟩ := ingest_logs_grow env sched u fid urls.length urls 0 [] 0 0
    (log_flow_event s fid "INGESTOR" "Starting enhanced multi-source data ingestion")
  have h2 : markers_upto (ingest_loop env sched u fid urls.length urls 0 [] 0 0
      (log_flow_event s fid "INGESTOR" "Starting enhanced multi-source data ingestion")).1
      fid 3 :=
    markers_upto_append_noise_ge _ _ fid 3 h1 L hL
      (fun j h3 hj => marker_notin_loopL L hP j h3 hj)
  simp only [exec_ingest]
  rcases hr : (ingest_loop env sched u fid urls.length urls 0 [] 0 0
      (log_flow_event s fid "INGESTOR" "Starting enhanced multi-source data ingestion")).2
    with _ | ⟨acc, cs, fs⟩
  · simp only []
    exact ⟨3, by omega, fun j hj => by rw [finally_cleanup_logs]; exact h2 j hj⟩
  · simp only []
    by_cases hie : acc.isEmpty = true
    · rw [if_pos hie]
      have hfail : markers_upto
          (log_flow_event
            { (ingest_loop env sched u fid urls.length urls 0 [] 0 0
                (log_flow_event s fid "INGESTOR"
                  "Starting enhanced multi-source data ingestion")).1 with
              flow_status := dset (ingest_loop env sched u fid urls.length urls 0 [] 0 0
                (log_flow_event s fid "INGESTOR"
                  "Starting enhanced multi-source data ingestion")).1.flow_status
                fid FlowStatus.failed }
            fid "SYSTEM" "Agent flow failed: No data could be scraped from any source")
          fid 3 :=
        markers_upto_append_noise_ge _ _ fid 3 h2
          [LogEntry.mk "SYSTEM" "Agent flow failed: No data could be scraped from any source"]
          (get_flow_logs_log _ _ _ _)
          (fun j _ hj hm => marker_ne_fail j hj (List.mem_singleton.mp hm))
      exact ⟨3, by omega, fun j hj => by rw [finally_cleanup_logs]; exact hfail j hj⟩
    · rw [if_neg hie]
      have h3 : markers_upto
          (log_flow_event (ingest_loop env sched u fid urls.length urls 0 [] 0 0
              (log_flow_event s fid "INGESTOR"
                "Starting enhanced multi-source data ingestion")).1
            fid "INGESTOR"
            ("Data ingestion completed for " ++ toString acc.length ++ " sources")) fid 3 :=
        markers_upto_append_noise_ge _ _ fid 3 h2
          [LogEntry.mk "INGESTOR"
            ("Data ingestion completed for " ++ toString acc.length ++ " sources")]
          (get_flow_logs_log _ _ _ _)
          (fun j hj3 hj hm =>
            marker_ne_ingest_entry _ j hj3 hj (List.mem_singleton.mp hm))
      obtain ⟨L2, hL2, hP2⟩ := gate_logs_grow sched (3 + urls.length) u fid
        (log_flow_event (ingest_loop env sched u fid urls.length urls 0 [] 0 0
            (log_flow_event s fid "INGESTOR"
              "Starting enhanced multi-source data ingestion")).1
          fid "INGESTOR"
          ("Data ingestion completed for " ++ toString acc.length ++ " sources"))
      have h4 : markers_upto (stop_gate sched (3 + urls.length) u fid
          (log_flow_event (ingest_loop env sched u fid urls.length urls 0 [] 0 0
              (log_flow_event s fid "INGESTOR"
                "Starting enhanced multi-source data ingestion")).1
            fid "INGESTOR"
            ("Data ingestion completed for " ++ toString acc.length ++ " sources"))).1
          fid 3 :=
        markers_upto_append_noise_ge _ _ fid 3 h3 L2 hL2
          (fun j _ hj => marker_notin_stopL L2 hP2 j hj)
      by_cases hg : (stop_gate sched (3 + urls.length) u fid
          (log_flow_event (ingest_loop env sched u fid urls.length urls 0 [] 0 0
              (log_flow_event s fid "INGESTOR"
                "Starting enhanced multi-source data ingestion")).1
            fid "INGESTOR"
            ("Data ingestion completed for " ++ toString acc.length ++ " sources"))).2 = true
      · rw [if_pos hg]
        exact ⟨3, by omega, fun j hj => by rw [finally_cleanup_logs]; exact h4 j hj⟩
      · rw [if_neg hg]
        exact exec_analysis_markers env sched u fid urls cs fs _ h4

theorem exec_news_markers (env : Env) (sched : Nat → Bool) (u : Nat)
    (fid : String) (urls : List String) (s : MState)
    (hin : markers_upto s fid 1) :
    ∃ p, p ≤ 7 ∧ markers_upto (exec_news env sched u fid urls s) fid p := by
  have h1 : markers_upto (log_flow_event s fid "NEWS" "Starting news research") fid 2 :=
    markers_upto_log_marker s fid 1 (by omega) hin
  obtain ⟨L, hL, hP⟩ := gate_logs_grow sched 2 u fid
    (log_flow_event s fid "NEWS" "Starting news research")
  have h2 : markers_upto (stop_gate sched 2 u fid
      (log_flow_event s fid "NEWS" "Starting news research")).1 fid 2 :=
    markers_upto_append_noise_ge _ _ fid 2 h1 L hL
      (fun j _ hj => marker_notin_stopL L hP j hj)
  simp only [exec_news]
  by_cases hg : (stop_gate sched 2 u fid
      (log_flow_event s fid "NEWS" "Starting news research")).2 = true
  · rw [if_pos hg]
    exact ⟨2, by omega, fun j hj => by rw [finally_cleanup_logs]; exact h2 j hj⟩
  · rw [if_neg hg]
    exact exec_ingest_markers env sched u fid urls _ h2

theorem exec_ctx_markers (env : Env) (sched : Nat → Bool) (u : Nat)
    (fid : String) (urls : List String) (s : MState)
    (hin : markers_upto s fid 0) :
    ∃ p, p ≤ 7 ∧ markers_upto (exec_ctx env sched u fid urls s) fid p := by
  have h1 : markers_upto
      (log_flow_event s fid "CONTEXT" "Analyzing business context") fid 1 :=
    markers_upto_log_marker s fid 0 (by omega) hin
  obtain ⟨L, hL, hP⟩ := gate_logs_grow sched 1 u fid
    (log_flow_event s fid "CONTEXT" "Analyzing business context")
  have h2 : markers_upto (stop_gate sched 1 u fid
      (log_flow_event s fid "CONTEXT" "Analyzing business context")).1 fid 1 :=
    markers_upto_append_noise_ge _ _ fid 1 h1 L hL
      (fun j _ hj => marker_notin_stopL L hP j hj)
  simp only [exec_ctx]
  by_cases hg : (stop_gate sched 1 u fid
      (log_flow_event s fid "CONTEXT" "Analyzing business context")).2 = true
  · rw [if_pos hg]
    exact ⟨1, by omega, fun j hj => by rw [finally_cleanup_logs]; exact h2 j hj⟩
  · rw [if_neg hg]
    exact exec_news_markers env sched u fid urls _ h2

/-- C6: for every environment and every stop-request schedule, the phases
run by the background execution form a prefix of the fixed phase
sequence: there is a cut p such that the phase-start marker of phase j is
in the flow log exactly when j is below p.  Each phase is gated by a stop
check immediately before it, so a stopped flow has run exactly the phases
before its halting gate and logs nothing from any later phase. -/
theorem C6_theorem (env : Env) (sched : Nat → Bool) (u : Nat) (fid : String)
    (urls : List String) (s0 : MState)
    (hlogs : dget s0.flow_logs fid = some []) :
    ∃ p, p ≤ 7 ∧ ∀ j, j < 7 →
      (phaseMarker j ∈ get_flow_logs (execute_agent_flow env sched u fid urls s0) fid ↔
        j < p) := by
  have hempty : get_flow_logs s0 fid = [] := by simp [get_flow_logs, hlogs]
  have h0 : markers_upto
      ({ s0 with flow_status := dset s0.flow_status fid FlowStatus.running }) fid 0 := by
    intro j hj
    constructor
    · intro h
      have h' : phaseMarker j ∈ get_flow_logs s0 fid := h
      rw [hempty] at h'
      cases h'
    · intro h
      omega
  have h1 : markers_upto (log_flow_event
      { s0 with flow_status := dset s0.flow_status fid FlowStatus.running }
      fid "SYSTEM" (start_flow_msg urls.length)) fid 0 :=
    markers_upto_append_noise_ge _ _ fid 0 h0
      [LogEntry.mk "SYSTEM" (start_flow_msg urls.length)]
      (get_flow_logs_log _ _ _ _)
      (fun j _ hj hm =>
        marker_ne_start urls.length j hj (List.mem_singleton.mp hm))
  obtain ⟨L, hL, hP⟩ := gate_logs_grow sched 0 u fid
    (log_flow_event
      { s0 with flow_status := dset s0.flow_status fid FlowStatus.running }
      fid "SYSTEM" (start_flow_msg urls.length))
  have h2 : markers_upto (stop_gate sched 0 u fid
      (log_flow_event
        { s0 with flow_status := dset s0.flow_status fid FlowStatus.running }
        fid "SYSTEM" (start_flow_msg urls.length))).1 fid 0 :=
    markers_upto_append_noise_ge _ _ fid 0 h1 L hL
      (fun j _ hj => marker_notin_stopL L hP j hj)
  simp only [execute_agent_flow]
  by_cases hg : (stop_gate sched 0 u fid
      (log_flow_event
        { s0 with flow_status := dset s0.flow_status fid FlowStatus.running }
        fid "SYSTEM" (start_flow_msg urls.length))).2 = true
  · rw [if_pos hg]
    exact ⟨0, by omega, fun j hj => by rw [finally_cleanup_logs]; exact h2 j hj⟩
  · rw [if_neg hg]
    exact exec_ctx_markers env sched u fid urls _ h2

/-- C6 witness: the prefix property at a concrete flow execution. -/
theorem C6_witness :
    ∃ p, p ≤ 7 ∧ ∀ j, j < 7 →
      (phaseMarker j ∈ get_flow_logs (execute_agent_flow ex_env sched_none 1 "flow-a"
        ["https://acme.com"] ex_started) "flow-a" ↔ j < p) :=
  C6_theorem ex_env sched_none 1 "flow-a" ["https://acme.com"] ex_started (by decide)

end Blynx
